import Mathlib

/-!
Shallow embedding of the Mars colony Monte Carlo simulator (`mcs.py`).

Numeric quantities (Python floats) are modelled as real numbers with exact
arithmetic.  Random draws (`random.random()`, `random.lognormvariate`,
`random.gauss`, `random.randint`) are modelled as explicit inputs: every
theorem quantifies over all possible values of the draws.  Python integers
are modelled as `Int` (the repair counter, day counter, storm counter) or
`Nat` (counts of machines, numbers of trials).  Python division, which
raises `ZeroDivisionError` on a zero divisor, is modelled by `pydiv`
returning `Except`.
-/

/-- Configuration record built by `MCSimConfig.__init__` (mcs.py lines 13-74). -/
structure MCSimConfig where
  mode : String
  daily_o2_consumption : ℝ
  daily_water_consumption : ℝ
  daily_food_consumption : ℝ
  daily_base_power_consumption : ℝ
  starting_o2 : ℝ
  max_o2_tank : ℝ
  starting_water : ℝ
  max_water_tank : ℝ
  starting_battery : ℝ
  starting_food : ℝ
  crop_daily_water_need : ℝ
  crop_food_production : ℝ
  crop_o2_production : ℝ
  num_oxygenators : ℕ
  oxygenator_mtbf : ℝ
  oxygenator_power_cost : ℝ
  o2_production_rate : ℝ
  num_water_reclaimers : ℕ
  water_reclaimer_mtbf : ℝ
  water_reclaimer_power_cost : ℝ
  water_reclamation_rate : ℝ
  water_recycle_efficiency : ℝ
  solar_capacity : ℝ
  max_battery : ℝ

/-- Module-level constant `crew_size = 6` (mcs.py line 11).  The colony step
is parametrised over the crew size so that the crew-size-zero scenario of the
specification can be stated; the program itself always uses this value. -/
def crew_size : ℕ := 6

/-- Module-level constant `mission_duration = 500` (mcs.py line 10). -/
def mission_duration : ℕ := 500

/-- Constructor `MCSimConfig.__init__` (mcs.py lines 14-74): all numeric
fields are hard-coded; the two experiment modes override a few of them. -/
def MCSimConfig.init (mode : String) : MCSimConfig :=
  let base : MCSimConfig :=
    { mode := mode
      daily_o2_consumption := 0.82
      daily_water_consumption := 2.5
      daily_food_consumption := 3035
      daily_base_power_consumption := 85
      starting_o2 := 8
      max_o2_tank := 50
      starting_water := 1000
      max_water_tank := 2000
      starting_battery := 500
      starting_food := 50000
      crop_daily_water_need := 10
      crop_food_production := 30000
      crop_o2_production := 1
      num_oxygenators := 1
      oxygenator_mtbf := 120
      oxygenator_power_cost := 12
      o2_production_rate := 7.5
      num_water_reclaimers := 1
      water_reclaimer_mtbf := 120
      water_reclaimer_power_cost := 3
      water_reclamation_rate := 30
      water_recycle_efficiency := 0.97
      solar_capacity := 45
      max_battery := 500 }
  let c1 :=
    if mode = "OXYGENATOR_REDUNDANCY_TEST" then
      { base with num_oxygenators := 3, oxygenator_power_cost := 4,
                  o2_production_rate := 2.5 }
    else base
  if mode = "BATTERY_TEST" then
    -- exchange of 10 kW solar for 10 * 50 kWh battery (lines 69-74)
    { c1 with solar_capacity := c1.solar_capacity - 10,
              max_battery := c1.max_battery + 10 * 50 }
  else c1

/-- Python float division: raises `ZeroDivisionError` on a zero divisor. -/
noncomputable def pydiv (a b : ℝ) : Except String ℝ :=
  if b = 0 then Except.error ("ZeroDivisionError") else Except.ok (a / b)

/-- State of one machine (mcs.py lines 81-93). -/
structure Machine where
  name : String
  production_rate : ℝ
  mtbf : ℝ
  is_broken : Bool
  days_to_repair : ℤ

/-- Constructor `Machine.__init__` (mcs.py lines 88-93). -/
def Machine.init (name : String) (production_rate mtbf_days : ℝ) : Machine :=
  { name := name, production_rate := production_rate, mtbf := mtbf_days,
    is_broken := false, days_to_repair := 0 }

/-- One day's random draws for one machine: `u` is the uniform draw of
`random.random()` in line 107 and `repair` is the log-normal draw of
`random.lognormvariate(1.0, 0.8)` in line 110 (always a positive real). -/
structure MachineDraw where
  u : ℝ
  repair : ℝ

/-- Daily failure probability `1 - e^(-1/MTBF)` (mcs.py line 106), with
Lean's total real division.  This agrees with the Python expression whenever
`mtbf ≠ 0`; `fail_prob_py` below captures the Python partiality. -/
noncomputable def fail_prob (mtbf : ℝ) : ℝ := 1 - Real.exp (-1 / mtbf)

/-- Python evaluation of the failure probability formula: the division
`-1 / self.mtbf` raises `ZeroDivisionError` when `mtbf = 0`. -/
noncomputable def fail_prob_py (mtbf : ℝ) : Except String ℝ :=
  (pydiv (-1) mtbf).map (fun x => 1 - Real.exp x)

/-- Method `Machine.daily_check` (mcs.py lines 95-114).  Returns the day's
production and the updated machine state. -/
noncomputable def Machine.daily_check (m : Machine) (d : MachineDraw) : ℝ × Machine :=
  if m.is_broken then
    -- already broken: decrement the repair timer (lines 97-102)
    let days := m.days_to_repair - 1
    if days ≤ 0 then
      (0, { m with is_broken := false, days_to_repair := 0 })
    else
      (0, { m with days_to_repair := days })
  else
    if d.u < fail_prob m.mtbf then
      -- random failure: repair time is the ceiling of a log-normal draw
      (0, { m with is_broken := true, days_to_repair := ⌈d.repair⌉ })
    else
      (m.production_rate, m)

/-- State of the crop module (mcs.py lines 116-127). -/
structure CropModule where
  base_food : ℝ
  base_o2 : ℝ
  health : ℝ

/-- Method `CropModule.grow` (mcs.py lines 129-153).  `g` is the
`random.gauss(1.0, 0.1)` draw of line 146.  Returns the pair
(food, oxygen) produced and the updated module. -/
noncomputable def CropModule.grow (c : CropModule) (has_water : Bool) (g : ℝ) :
    (ℝ × ℝ) × CropModule :=
  let h1 := if has_water then c.health + 0.1 else c.health - 0.2
  let h2 := max 0 (min 1 h1)
  if h2 ≤ 0 then
    ((0, 0), { c with health := 0 })
  else
    let bio_factor := max 0.8 (min 1.2 g)
    ((max 0 (c.base_food * bio_factor * h2), max 0 (c.base_o2 * bio_factor * h2)),
      { c with health := h2 })

/-- Environment state (mcs.py lines 155-158). -/
structure MarsEnvironment where
  is_storming : Bool
  storm_counter : ℤ

/-- Method `MarsEnvironment.get_sunlight_efficiency` (mcs.py lines 160-197).
`u` is the storm-trigger draw of line 186 and `dur` the
`random.randint(5, 15)` storm-duration draw of line 188.  Returns the
efficiency and the updated environment. -/
noncomputable def MarsEnvironment.get_sunlight_efficiency
    (e : MarsEnvironment) (Ls_degrees : ℝ) (u : ℝ) (dur : ℤ) :
    ℝ × MarsEnvironment :=
  let ls_rad := Ls_degrees * (Real.pi / 180)
  let tau_base := 0.65 - 0.35 * Real.sin ls_rad
  if e.is_storming then
    let counter := e.storm_counter - 1
    let e' : MarsEnvironment :=
      if counter ≤ 0 then { is_storming := false, storm_counter := counter }
      else { is_storming := true, storm_counter := counter }
    (max 0.02 (Real.exp (-(tau_base + 4))), e')
  else
    let e' : MarsEnvironment :=
      if 200 < Ls_degrees ∧ Ls_degrees < 300 ∧ u < 0.005 then
        { is_storming := true, storm_counter := dur }
      else e
    (max 0.02 (Real.exp (-(tau_base + 0))), e')

/-- Colony state (mcs.py lines 204-230). -/
structure MarsColony where
  cfg : MCSimConfig
  day : ℤ
  alive : Bool
  cause_of_death : String
  o2 : ℝ
  water : ℝ
  waste_water : ℝ
  battery : ℝ
  food : ℝ
  env : MarsEnvironment
  crops : CropModule
  oxygenators : List Machine
  water_reclaimers : List Machine

/-- Constructor `MarsColony.__init__` (mcs.py lines 205-230). -/
noncomputable def MarsColony.init (cfg : MCSimConfig) : MarsColony :=
  { cfg := cfg
    day := 0
    alive := true
    cause_of_death := ""
    o2 := cfg.starting_o2
    water := cfg.starting_water
    waste_water := 0
    battery := cfg.starting_battery
    food := cfg.starting_food
    env := { is_storming := false, storm_counter := 0 }
    crops := { base_food := cfg.crop_food_production,
               base_o2 := cfg.crop_o2_production, health := 1 }
    oxygenators := (List.range cfg.num_oxygenators).map
      (fun i => Machine.init ("Oxy-" ++ toString i) cfg.o2_production_rate cfg.oxygenator_mtbf)
    water_reclaimers := (List.range cfg.num_water_reclaimers).map
      (fun i => Machine.init ("WaterRec-" ++ toString i) cfg.water_reclamation_rate
        cfg.water_reclaimer_mtbf) }

/-- One day's random draws for the whole colony: the environment draws, the
crop biological-variability draw, and one draw bundle per machine (indexed by
the machine's position in its list). -/
structure DayDraws where
  env_u : ℝ
  env_dur : ℤ
  bio : ℝ
  oxyD : ℕ → MachineDraw
  recD : ℕ → MachineDraw

/-- Result of the oxygenator dispatch loop (mcs.py lines 260-270). -/
structure DispatchOut where
  produced : ℝ
  avail : ℝ
  power : ℝ
  machines : List Machine

/-- Oxygenator dispatch loop (mcs.py lines 260-270): each unit runs only if
the running available-power total covers its cost and the oxygen tank is
below max; running units call `daily_check` and consume their power cost. -/
noncomputable def runOxygenators (cost : ℝ) (needs_o2 : Bool) (ds : ℕ → MachineDraw) :
    List Machine → ℕ → ℝ → DispatchOut
  | [], _, avail => { produced := 0, avail := avail, power := 0, machines := [] }
  | m :: rest, i, avail =>
    if cost ≤ avail ∧ needs_o2 = true then
      let r := m.daily_check (ds i)
      let out := runOxygenators cost needs_o2 ds rest (i + 1) (avail - cost)
      { produced := r.1 + out.produced, avail := out.avail,
        power := cost + out.power, machines := r.2 :: out.machines }
    else
      let out := runOxygenators cost needs_o2 ds rest (i + 1) avail
      { produced := out.produced, avail := out.avail,
        power := out.power, machines := m :: out.machines }

/-- Result of the water-reclaimer dispatch loop (mcs.py lines 272-285). -/
structure RecOut where
  reclaimed : ℝ
  waste : ℝ
  avail : ℝ
  power : ℝ
  machines : List Machine

/-- Water-reclaimer dispatch loop (mcs.py lines 272-285): same gating as the
oxygenators, but a running unit's output is capped by the waste-water stock
(`min(unit_output, waste_water)`) and the capped amount is removed from the
waste tank. -/
noncomputable def runReclaimers (cost : ℝ) (needs_water : Bool) (ds : ℕ → MachineDraw) :
    List Machine → ℕ → ℝ → ℝ → RecOut
  | [], _, avail, waste =>
    { reclaimed := 0, waste := waste, avail := avail, power := 0, machines := [] }
  | m :: rest, i, avail, waste =>
    if cost ≤ avail ∧ needs_water = true then
      let r := m.daily_check (ds i)
      let actual := min r.1 waste
      let out := runReclaimers cost needs_water ds rest (i + 1) (avail - cost) (waste - actual)
      { reclaimed := actual + out.reclaimed, waste := out.waste, avail := out.avail,
        power := cost + out.power, machines := r.2 :: out.machines }
    else
      let out := runReclaimers cost needs_water ds rest (i + 1) avail waste
      { reclaimed := out.reclaimed, waste := out.waste, avail := out.avail,
        power := out.power, machines := m :: out.machines }

/-- Season angle passed to the environment: `self.day % 360` computed on the
already-incremented day counter (mcs.py line 237). -/
def MarsColony.Ls (c : MarsColony) : ℝ := (((c.day + 1) % 360 : ℤ) : ℝ)

/-- Environment call of the day (mcs.py line 237). -/
noncomputable def MarsColony.env_result (c : MarsColony) (d : DayDraws) :
    ℝ × MarsEnvironment :=
  c.env.get_sunlight_efficiency c.Ls d.env_u d.env_dur

/-- Sunlight efficiency of the day. -/
noncomputable def MarsColony.sun_eff (c : MarsColony) (d : DayDraws) : ℝ :=
  (c.env_result d).1

/-- Power generated: `solar_capacity * sun_eff * 8` (mcs.py line 238). -/
noncomputable def MarsColony.power_gen (c : MarsColony) (d : DayDraws) : ℝ :=
  c.cfg.solar_capacity * c.sun_eff d * 8

/-- Provisional power budget before machines (mcs.py line 242). -/
noncomputable def MarsColony.avail0 (c : MarsColony) (d : DayDraws) : ℝ :=
  c.battery + c.power_gen d - c.cfg.daily_base_power_consumption

/-- Crew oxygen demand (mcs.py line 243). -/
noncomputable def MarsColony.total_o2_need (crew : ℕ) (c : MarsColony) : ℝ :=
  c.cfg.daily_o2_consumption * crew

/-- Crew water demand (mcs.py line 244). -/
noncomputable def MarsColony.base_water_need (crew : ℕ) (c : MarsColony) : ℝ :=
  c.cfg.daily_water_consumption * crew

/-- Crew food demand (mcs.py line 245). -/
noncomputable def MarsColony.total_food_need (crew : ℕ) (c : MarsColony) : ℝ :=
  c.cfg.daily_food_consumption * crew

/-- Crop irrigation gate (mcs.py line 249): crops get water only if the
stock covers crew demand plus crop demand. -/
noncomputable def MarsColony.crop_water_available (crew : ℕ) (c : MarsColony) : Bool :=
  decide (c.base_water_need crew + c.cfg.crop_daily_water_need ≤ c.water)

/-- Total water demand of the day (mcs.py lines 244-251). -/
noncomputable def MarsColony.total_water_need (crew : ℕ) (c : MarsColony) : ℝ :=
  if c.crop_water_available crew then
    c.base_water_need crew + c.cfg.crop_daily_water_need
  else c.base_water_need crew

/-- Crop call of the day (mcs.py line 253). -/
noncomputable def MarsColony.crop_result (crew : ℕ) (c : MarsColony) (d : DayDraws) :
    (ℝ × ℝ) × CropModule :=
  c.crops.grow (c.crop_water_available crew) d.bio

/-- Waste-water stock at the start of the reclaimer dispatch phase, after
the day's waste generation (mcs.py line 257). -/
noncomputable def MarsColony.waste_before (crew : ℕ) (c : MarsColony) : ℝ :=
  c.waste_water + c.total_water_need crew * c.cfg.water_recycle_efficiency

/-- Oxygenator dispatch result of the day (mcs.py lines 260-270). -/
noncomputable def MarsColony.oxy_result (c : MarsColony) (d : DayDraws) : DispatchOut :=
  runOxygenators c.cfg.oxygenator_power_cost (decide (c.o2 < c.cfg.max_o2_tank))
    d.oxyD c.oxygenators 0 (c.avail0 d)

/-- Water-reclaimer dispatch result of the day (mcs.py lines 272-285). -/
noncomputable def MarsColony.rec_result (crew : ℕ) (c : MarsColony) (d : DayDraws) : RecOut :=
  runReclaimers c.cfg.water_reclaimer_power_cost (decide (c.water < c.cfg.max_water_tank))
    d.recD c.water_reclaimers 0 (c.oxy_result d).avail (c.waste_before crew)

/-- Total power consumed: base plus every dispatched machine's cost
(mcs.py lines 241, 267, 282). -/
noncomputable def MarsColony.total_power_need (crew : ℕ) (c : MarsColony) (d : DayDraws) : ℝ :=
  c.cfg.daily_base_power_consumption + (c.oxy_result d).power + (c.rec_result crew d).power

/-- Battery stock before clamping (mcs.py line 290). -/
noncomputable def MarsColony.battery_pre (crew : ℕ) (c : MarsColony) (d : DayDraws) : ℝ :=
  c.battery + c.power_gen d - c.total_power_need crew d

/-- Battery stock after clamping (mcs.py lines 290-292). -/
noncomputable def MarsColony.battery_post (crew : ℕ) (c : MarsColony) (d : DayDraws) : ℝ :=
  if c.battery_pre crew d > c.cfg.max_battery then c.cfg.max_battery else c.battery_pre crew d

/-- Oxygen stock before clamping (mcs.py line 295). -/
noncomputable def MarsColony.o2_pre (crew : ℕ) (c : MarsColony) (d : DayDraws) : ℝ :=
  c.o2 + ((c.oxy_result d).produced + (c.crop_result crew d).1.2 - c.total_o2_need crew)

/-- Oxygen stock after clamping (mcs.py lines 295-297). -/
noncomputable def MarsColony.o2_post (crew : ℕ) (c : MarsColony) (d : DayDraws) : ℝ :=
  if c.o2_pre crew d > c.cfg.max_o2_tank then c.cfg.max_o2_tank else c.o2_pre crew d

/-- Water stock before clamping (mcs.py line 300). -/
noncomputable def MarsColony.water_pre (crew : ℕ) (c : MarsColony) (d : DayDraws) : ℝ :=
  c.water + ((c.rec_result crew d).reclaimed - c.total_water_need crew)

/-- Water stock after clamping (mcs.py lines 300-302). -/
noncomputable def MarsColony.water_post (crew : ℕ) (c : MarsColony) (d : DayDraws) : ℝ :=
  if c.water_pre crew d > c.cfg.max_water_tank then c.cfg.max_water_tank else c.water_pre crew d

/-- Food stock after update: no clamp (mcs.py line 305). -/
noncomputable def MarsColony.food_post (crew : ℕ) (c : MarsColony) (d : DayDraws) : ℝ :=
  c.food + ((c.crop_result crew d).1.1 - c.total_food_need crew)

/-- Method `MarsColony.step` (mcs.py lines 232-322): one simulated day. -/
noncomputable def MarsColony.step (crew : ℕ) (c : MarsColony) (d : DayDraws) : MarsColony :=
  { cfg := c.cfg
    day := c.day + 1
    alive :=
      if c.battery_post crew d < 0 then false
      else if c.o2_post crew d < 0 then false
      else if c.water_post crew d < 0 then false
      else if c.food_post crew d < 0 then false
      else c.alive
    cause_of_death :=
      if c.battery_post crew d < 0 then "Power Failure"
      else if c.o2_post crew d < 0 then "Suffocation"
      else if c.water_post crew d < 0 then "Dehydration"
      else if c.food_post crew d < 0 then "Starvation"
      else c.cause_of_death
    o2 := c.o2_post crew d
    water := c.water_post crew d
    waste_water := (c.rec_result crew d).waste
    battery := c.battery_post crew d
    food := c.food_post crew d
    env := (c.env_result d).2
    crops := (c.crop_result crew d).2
    oxygenators := (c.oxy_result d).machines
    water_reclaimers := (c.rec_result crew d).machines }

/-- Iterated mission loop (mcs.py lines 324-341): run `n` iterations of the
body `if not alive: break; step()`, where iteration `k` consumes the day's
draw bundle `O k`. -/
noncomputable def MarsColony.runN (crew : ℕ) (O : ℕ → DayDraws) (c : MarsColony) :
    ℕ → MarsColony
  | 0 => c
  | n + 1 =>
    let c' := MarsColony.runN crew O c n
    if c'.alive then c'.step crew (O n) else c'

/-- Method `MarsColony.run_mission` (mcs.py lines 324-341): the full horizon
of `mission_duration` days (the trajectory record is not modelled; the
terminal state carries the `alive` flag and cause of death). -/
noncomputable def MarsColony.run_mission (crew : ℕ) (O : ℕ → DayDraws) (cfg : MCSimConfig) :
    MarsColony :=
  MarsColony.runN crew O (MarsColony.init cfg) mission_duration

/-- Function `run_mcs` (mcs.py lines 348-368): runs `n_simulations`
independent missions (trial `i` uses draw oracle `O i`) and returns
`(success_count / n_simulations) * 100`, where the division is Python
division and raises `ZeroDivisionError` when `n_simulations = 0`. -/
noncomputable def run_mcs (experiment_mode : String) (n_simulations : ℕ)
    (O : ℕ → ℕ → DayDraws) : Except String ℝ :=
  let cfg := MCSimConfig.init experiment_mode
  let outcomes := (List.range n_simulations).map
    (fun i => MarsColony.run_mission crew_size (O i) cfg)
  let success_count := (outcomes.filter (fun c => c.alive)).length
  (pydiv (success_count : ℝ) (n_simulations : ℝ)).map (fun q => q * 100)

/-- Machine state after `n` calls to `daily_check`, call `k` using draw
`ds k`. -/
noncomputable def checkRun (m : Machine) (ds : ℕ → MachineDraw) : ℕ → Machine
  | 0 => m
  | n + 1 => ((checkRun m ds n).daily_check (ds n)).2

/-- Production returned by the `(n+1)`-th call to `daily_check`. -/
noncomputable def checkOut (m : Machine) (ds : ℕ → MachineDraw) (n : ℕ) : ℝ :=
  ((checkRun m ds n).daily_check (ds n)).1

/-- Crop module after `n` consecutive waterless calls to `grow`, call `k`
using gauss draw `g k`. -/
noncomputable def dryRun (c : CropModule) (g : ℕ → ℝ) : ℕ → CropModule
  | 0 => c
  | n + 1 => ((dryRun c g n).grow false (g n)).2

/-- Colony states reachable from the initial state of a given experiment
mode by any number of steps under any draws. -/
inductive Reachable (crew : ℕ) (mode : String) : MarsColony → Prop
  | init : Reachable crew mode (MarsColony.init (MCSimConfig.init mode))
  | step (c : MarsColony) (d : DayDraws) :
      Reachable crew mode c → Reachable crew mode (c.step crew d)

/-! ### Basic lemmas -/

lemma clamp_le (x m : ℝ) : (if x > m then m else x) ≤ m := by
  split
  · exact le_rfl
  · exact le_of_not_lt (by assumption)

lemma clamp_eq_of_le {x m : ℝ} (h : x ≤ m) : (if x > m then m else x) = x := by
  rw [if_neg (not_lt.mpr h)]

lemma clamp_eq_of_gt {x m : ℝ} (h : m < x) : (if x > m then m else x) = m := by
  rw [if_pos h]

/-- C1: for every colony state (in particular every reachable one), every
crew size and every outcome of the day's random draws, immediately after
`MarsColony.step` the oxygen stock is at most `cfg.max_o2_tank`, the water
stock is at most `cfg.max_water_tank`, the battery stock is at most
`cfg.max_battery`, while the food stock is not capped (it is exactly the old
stock plus production minus demand). -/
theorem step_stocks_clamped (crew : ℕ) (c : MarsColony) (d : DayDraws) :
    (c.step crew d).o2 ≤ c.cfg.max_o2_tank ∧
    (c.step crew d).water ≤ c.cfg.max_water_tank ∧
    (c.step crew d).battery ≤ c.cfg.max_battery ∧
    (c.step crew d).food =
      c.food + ((c.crop_result crew d).1.1 - c.total_food_need crew) := by
  refine ⟨clamp_le _ _, clamp_le _ _, clamp_le _ _, rfl⟩

/-! ### Machine branch lemmas -/

lemma daily_check_broken_cont (m : Machine) (d : MachineDraw)
    (hb : m.is_broken = true) (hd : 1 < m.days_to_repair) :
    m.daily_check d = (0, { m with days_to_repair := m.days_to_repair - 1 }) := by
  have h1 : ¬ (m.days_to_repair - 1 ≤ 0) := by omega
  simp [Machine.daily_check, hb, h1]

lemma daily_check_broken_last (m : Machine) (d : MachineDraw)
    (hb : m.is_broken = true) (hd : m.days_to_repair ≤ 1) :
    m.daily_check d = (0, { m with is_broken := false, days_to_repair := 0 }) := by
  have h1 : m.days_to_repair - 1 ≤ 0 := by omega
  simp [Machine.daily_check, hb, h1]

lemma daily_check_fail (m : Machine) (d : MachineDraw)
    (hb : m.is_broken = false) (hu : d.u < fail_prob m.mtbf) :
    m.daily_check d = (0, { m with is_broken := true, days_to_repair := ⌈d.repair⌉ }) := by
  simp [Machine.daily_check, hb, hu]

lemma daily_check_ok (m : Machine) (d : MachineDraw)
    (hb : m.is_broken = false) (hu : ¬ d.u < fail_prob m.mtbf) :
    m.daily_check d = (m.production_rate, m) := by
  simp [Machine.daily_check, hb, hu]

lemma daily_check_production_rate (m : Machine) (d : MachineDraw) :
    ((m.daily_check d).2).production_rate = m.production_rate := by
  rcases Bool.eq_false_or_eq_true m.is_broken with hb | hb
  · by_cases hd : m.days_to_repair ≤ 1
    · rw [daily_check_broken_last m d hb hd]
    · rw [daily_check_broken_cont m d hb (by omega)]
  · by_cases hu : d.u < fail_prob m.mtbf
    · rw [daily_check_fail m d hb hu]
    · rw [daily_check_ok m d hb hu]

lemma daily_check_mtbf (m : Machine) (d : MachineDraw) :
    ((m.daily_check d).2).mtbf = m.mtbf := by
  rcases Bool.eq_false_or_eq_true m.is_broken with hb | hb
  · by_cases hd : m.days_to_repair ≤ 1
    · rw [daily_check_broken_last m d hb hd]
    · rw [daily_check_broken_cont m d hb (by omega)]
  · by_cases hu : d.u < fail_prob m.mtbf
    · rw [daily_check_fail m d hb hu]
    · rw [daily_check_ok m d hb hu]

lemma daily_check_nonneg (m : Machine) (d : MachineDraw)
    (h : 0 ≤ m.production_rate) : 0 ≤ (m.daily_check d).1 := by
  rcases Bool.eq_false_or_eq_true m.is_broken with hb | hb
  · by_cases hd : m.days_to_repair ≤ 1
    · rw [daily_check_broken_last m d hb hd]
    · rw [daily_check_broken_cont m d hb (by omega)]
  · by_cases hu : d.u < fail_prob m.mtbf
    · rw [daily_check_fail m d hb hu]
    · rw [daily_check_ok m d hb hu]; exact h

lemma daily_check_broken_fst (m : Machine) (d : MachineDraw)
    (hb : m.is_broken = true) : (m.daily_check d).1 = 0 := by
  by_cases hd : m.days_to_repair ≤ 1
  · rw [daily_check_broken_last m d hb hd]
  · rw [daily_check_broken_cont m d hb (by omega)]

/-- State of a broken machine after `k ≤ N` of its `N` repair days. -/
lemma checkRun_broken (m : Machine) (ds : ℕ → MachineDraw) (N : ℕ) (hN : 1 ≤ N)
    (hb : m.is_broken = true) (hd : m.days_to_repair = (N : ℤ)) :
    ∀ k, k ≤ N → checkRun m ds k =
      { m with is_broken := decide (k < N),
               days_to_repair := if k < N then (N : ℤ) - k else 0 } := by
  intro k
  induction k with
  | zero =>
    intro _
    have h0 : 0 < N := hN
    show m = _
    rw [if_pos h0, decide_eq_true h0, Nat.cast_zero, sub_zero, ← hd, ← hb]
  | succ k ih =>
    intro hk
    have hkN : k < N := Nat.lt_of_succ_le hk
    have hrun := ih (Nat.le_of_lt hkN)
    show ((checkRun m ds k).daily_check (ds k)).2 = _
    rw [hrun]
    rcases Nat.lt_or_ge (k + 1) N with hlt | hge
    · rw [daily_check_broken_cont _ _ (by simp [hkN])
        (by rw [if_pos hkN]; push_cast; omega)]
      show Machine.mk _ _ _ _ _ = Machine.mk _ _ _ _ _
      rw [decide_eq_true hkN, decide_eq_true hlt, if_pos hkN, if_pos hlt]
      congr 1
      push_cast
      ring
    · have heq : N = k + 1 := Nat.le_antisymm hge hk
      rw [daily_check_broken_last _ _ (by simp [hkN])
        (by rw [if_pos hkN]; subst heq; push_cast; omega)]
      show Machine.mk _ _ _ _ _ = Machine.mk _ _ _ _ _
      have hnot : ¬ (k + 1 < N) := by omega
      rw [if_neg hnot, decide_eq_false hnot]

/-- C3: a machine that is broken with `N ≥ 1` repair days returns exactly 0
from each of the next `N` calls to `daily_check` regardless of the random
draws; after the `N`-th call it is no longer broken and its repair counter
is 0; and the `(N+1)`-th call returns the nominal production rate whenever
the failure draw of that call does not fire. -/
theorem broken_machine_produces_zero (m : Machine) (ds : ℕ → MachineDraw) (N : ℕ)
    (hN : 1 ≤ N) (hb : m.is_broken = true) (hd : m.days_to_repair = (N : ℤ)) :
    (∀ k, k < N → checkOut m ds k = 0) ∧
    (checkRun m ds N).is_broken = false ∧
    (checkRun m ds N).days_to_repair = 0 ∧
    (fail_prob m.mtbf ≤ (ds N).u → checkOut m ds N = m.production_rate) := by
  have hrun := checkRun_broken m ds N hN hb hd
  refine ⟨?_, ?_, ?_, ?_⟩
  · intro k hk
    unfold checkOut
    rw [hrun k (Nat.le_of_lt hk)]
    exact daily_check_broken_fst _ _ (by simp [hk])
  · rw [hrun N le_rfl]
    simp
  · rw [hrun N le_rfl]
    simp
  · intro hu
    have hM : checkRun m ds N = { m with is_broken := false, days_to_repair := 0 } := by
      rw [hrun N le_rfl]
      simp
    unfold checkOut
    rw [hM, daily_check_ok { m with is_broken := false, days_to_repair := 0 }
      (ds N) rfl (not_lt.mpr hu)]

/-- C3 witness at `N = 1`, `mtbf = 120`, a non-firing draw `u = 1`. -/
theorem broken_machine_produces_zero_witness :
    checkOut { name := "M", production_rate := 7.5, mtbf := 120,
               is_broken := true, days_to_repair := 1 } (fun _ => ⟨1, 1⟩) 0 = 0 ∧
    checkOut { name := "M", production_rate := 7.5, mtbf := 120,
               is_broken := true, days_to_repair := 1 } (fun _ => ⟨1, 1⟩) 1 = 7.5 := by
  have h := broken_machine_produces_zero
    { name := "M", production_rate := 7.5, mtbf := 120,
      is_broken := true, days_to_repair := 1 } (fun _ => ⟨1, 1⟩) 1 le_rfl rfl rfl
  refine ⟨h.1 0 Nat.zero_lt_one, h.2.2.2 ?_⟩
  show fail_prob 120 ≤ 1
  unfold fail_prob
  have := Real.exp_pos (-1 / 120)
  linarith

/-- Invariant of one machine: the repair counter is zero whenever the
machine is not broken. -/
def MachineHealthyInv (m : Machine) : Prop :=
  m.is_broken = false → m.days_to_repair = 0

/-- C9: the invariant `days_to_repair = 0` whenever `is_broken = false`
holds for a freshly constructed machine and is preserved by every call to
`daily_check` under every outcome of the draws; a freshly drawn failure
(positive log-normal repair draw) sets `days_to_repair ≥ 1`, and a call
that clears the broken flag resets the counter to 0. -/
theorem machine_repair_invariant :
    (∀ (name : String) (rate mtbf : ℝ), MachineHealthyInv (Machine.init name rate mtbf)) ∧
    (∀ (m : Machine) (d : MachineDraw),
      MachineHealthyInv m → MachineHealthyInv ((m.daily_check d).2)) ∧
    (∀ (m : Machine) (d : MachineDraw), m.is_broken = false →
      d.u < fail_prob m.mtbf → 0 < d.repair →
      1 ≤ ((m.daily_check d).2).days_to_repair) ∧
    (∀ (m : Machine) (d : MachineDraw), m.is_broken = true →
      ((m.daily_check d).2).is_broken = false →
      ((m.daily_check d).2).days_to_repair = 0) := by
  refine ⟨?_, ?_, ?_, ?_⟩
  · intro name rate mtbf _
    rfl
  · intro m d hm
    rcases Bool.eq_false_or_eq_true m.is_broken with hb | hb
    · by_cases hd : m.days_to_repair ≤ 1
      · rw [daily_check_broken_last m d hb hd]
        intro _
        rfl
      · rw [daily_check_broken_cont m d hb (by omega)]
        intro h
        exact absurd h (by simp [hb])
    · by_cases hu : d.u < fail_prob m.mtbf
      · rw [daily_check_fail m d hb hu]
        intro h
        simp at h
      · rw [daily_check_ok m d hb hu]
        exact hm
  · intro m d hm hu hr
    rw [daily_check_fail m d hm hu]
    show 1 ≤ ⌈d.repair⌉
    have h0 : (0 : ℤ) < ⌈d.repair⌉ := Int.lt_ceil.mpr (by exact_mod_cast hr)
    omega
  · intro m d hm h
    by_cases hd : m.days_to_repair ≤ 1
    · rw [daily_check_broken_last m d hm hd]
    · rw [daily_check_broken_cont m d hm (by omega)] at h
      exact absurd h (by simp [hm])

/-- C9 witness: the invariant for a fresh machine, its preservation on one
concrete call, and the `days ≥ 1` property at a concrete firing draw. -/
theorem machine_repair_invariant_witness :
    MachineHealthyInv (Machine.init ("M") 7.5 120) ∧
    MachineHealthyInv (((Machine.init ("M") 7.5 120)).daily_check ⟨1, 1⟩).2 ∧
    1 ≤ (((Machine.init ("M") 7.5 120)).daily_check ⟨0, 1⟩).2.days_to_repair := by
  have h1 := machine_repair_invariant.1 "M" 7.5 120
  have h2 := machine_repair_invariant.2.1 (Machine.init ("M") 7.5 120) ⟨1, 1⟩ h1
  have h3 := machine_repair_invariant.2.2.1 (Machine.init ("M") 7.5 120) ⟨0, 1⟩ rfl
    (by
      show (0 : ℝ) < fail_prob 120
      unfold fail_prob
      have h4 : Real.exp (-1 / 120) < 1 := Real.exp_lt_one_iff.mpr (by norm_num)
      linarith)
    (by norm_num)
  exact ⟨h1, h2, h3⟩

/-! ### Crop branch lemmas -/

/-- Crop health after the update-and-clamp of `grow` (mcs.py lines 130-137). -/
noncomputable def newHealth (c : CropModule) (w : Bool) : ℝ :=
  max 0 (min 1 (if w = true then c.health + 0.1 else c.health - 0.2))

/-- Clamped biological-variability factor (mcs.py line 146). -/
noncomputable def bioClamp (g : ℝ) : ℝ := max 0.8 (min 1.2 g)

lemma grow_eq_dead (c : CropModule) (w : Bool) (g : ℝ) (h : newHealth c w ≤ 0) :
    c.grow w g = ((0, 0), { c with health := 0 }) := by
  unfold newHealth at h
  simp only [CropModule.grow]
  rw [if_pos h]

lemma grow_eq_live (c : CropModule) (w : Bool) (g : ℝ) (h : ¬ newHealth c w ≤ 0) :
    c.grow w g =
      ((max 0 (c.base_food * bioClamp g * newHealth c w),
        max 0 (c.base_o2 * bioClamp g * newHealth c w)),
       { c with health := newHealth c w }) := by
  unfold newHealth at h ⊢
  unfold bioClamp
  simp only [CropModule.grow]
  rw [if_neg h]

lemma grow_health (c : CropModule) (w : Bool) (g : ℝ) :
    ((c.grow w g).2).health = newHealth c w := by
  by_cases h : newHealth c w ≤ 0
  · rw [grow_eq_dead c w g h]
    exact (le_antisymm h (le_max_left _ _)).symm
  · rw [grow_eq_live c w g h]

lemma grow_health_true (c : CropModule) (g : ℝ) (h0 : 0 ≤ c.health) :
    ((c.grow true g).2).health = min 1 (c.health + 0.1) := by
  rw [grow_health]
  unfold newHealth
  simp only [if_true]
  exact max_eq_right (le_min (by norm_num) (by linarith))

/-- Supporting analysis: under exact real arithmetic (the intent documented
by the source comment "Dies in 5 days without water", mcs.py line 132) a
crop module starting at health 1 reaches health exactly 0 after 5
consecutive waterless calls to `grow`, with the 5th call yielding exactly
`(0, 0)`; and from any state with health in `[0, 1)` a watered call sets
health to `min 1 (health + 0.1)`, a strict increase.  The program computes
in IEEE binary64 instead, where this 5-day property fails: see
`crop_drought_float_divergence` below. -/
theorem crop_drought_exact_real :
    (∀ (f o : ℝ) (g : ℕ → ℝ),
      (dryRun ⟨f, o, 1⟩ g 5).health = 0 ∧
      ((dryRun ⟨f, o, 1⟩ g 4).grow false (g 4)).1 = (0, 0)) ∧
    (∀ (c : CropModule) (g : ℝ), 0 ≤ c.health → c.health < 1 →
      ((c.grow true g).2).health = min 1 (c.health + 0.1) ∧
      c.health < ((c.grow true g).2).health) := by
  constructor
  · intro f o g
    have h1 : (dryRun ⟨f, o, 1⟩ g 1).health = 0.8 := by
      show ((dryRun ⟨f, o, 1⟩ g 0).grow false (g 0)).2.health = 0.8
      rw [grow_health]
      unfold newHealth
      norm_num [dryRun]
    have h2 : (dryRun ⟨f, o, 1⟩ g 2).health = 0.6 := by
      show ((dryRun ⟨f, o, 1⟩ g 1).grow false (g 1)).2.health = 0.6
      rw [grow_health]
      unfold newHealth
      rw [h1]
      norm_num
    have h3 : (dryRun ⟨f, o, 1⟩ g 3).health = 0.4 := by
      show ((dryRun ⟨f, o, 1⟩ g 2).grow false (g 2)).2.health = 0.4
      rw [grow_health]
      unfold newHealth
      rw [h2]
      norm_num
    have h4 : (dryRun ⟨f, o, 1⟩ g 4).health = 0.2 := by
      show ((dryRun ⟨f, o, 1⟩ g 3).grow false (g 3)).2.health = 0.2
      rw [grow_health]
      unfold newHealth
      rw [h3]
      norm_num
    have hdead : newHealth (dryRun ⟨f, o, 1⟩ g 4) false ≤ 0 := by
      unfold newHealth
      rw [h4]
      norm_num
    constructor
    · show ((dryRun ⟨f, o, 1⟩ g 4).grow false (g 4)).2.health = 0
      rw [grow_eq_dead _ _ _ hdead]
    · rw [grow_eq_dead _ _ _ hdead]
  · intro c g h0 h1
    refine ⟨grow_health_true c g h0, ?_⟩
    rw [grow_health_true c g h0]
    exact lt_min h1 (by linarith)




/-! ### Environment lemmas -/

lemma tau_base_bounds (x : ℝ) :
    0.3 ≤ 0.65 - 0.35 * Real.sin x ∧ 0.65 - 0.35 * Real.sin x ≤ 1 := by
  have h1 := Real.neg_one_le_sin x
  have h2 := Real.sin_le_one x
  constructor <;> nlinarith

lemma exp_neg_one_gt_five_eighteenths : (5 / 18 : ℝ) < Real.exp (-1) := by
  have h := Real.exp_neg_one_gt_d9
  norm_num at h ⊢
  linarith

lemma eff_calm_core {t : ℝ} (h1 : 0.3 ≤ t) (h2 : t ≤ 1) :
    5 / 18 < Real.exp (-(t + 0)) ∧ Real.exp (-(t + 0)) < 1 := by
  constructor
  · have h3 : Real.exp (-1) ≤ Real.exp (-(t + 0)) := Real.exp_le_exp.mpr (by linarith)
    linarith [exp_neg_one_gt_five_eighteenths]
  · exact Real.exp_lt_one_iff.mpr (by linarith)

lemma eff_storm_core {t : ℝ} (h1 : 0.3 ≤ t) : Real.exp (-(t + 4)) < 0.02 := by
  have h4 : Real.exp (-(t + 4)) ≤ Real.exp (-(4.3 : ℝ)) := Real.exp_le_exp.mpr (by linarith)
  have h5 : Real.exp (-(4.3 : ℝ)) ≤ Real.exp (-(4 : ℝ)) := Real.exp_le_exp.mpr (by norm_num)
  have h6 := Real.exp_nat_mul (-1) 4
  have h7 : Real.exp (-(4 : ℝ)) = Real.exp (-1) ^ 4 := by
    rw [← h6]
    norm_num
  have h8 := Real.exp_neg_one_lt_d9
  have h9 : (0 : ℝ) < Real.exp (-1) := Real.exp_pos _
  have h10 : Real.exp (-1) ^ 4 < 0.3678794412 ^ 4 :=
    pow_lt_pow_left₀ h8 (le_of_lt h9) (by norm_num)
  have h11 : (0.3678794412 : ℝ) ^ 4 < 0.02 := by norm_num
  linarith

lemma env_eff_storm (e : MarsEnvironment) (he : e.is_storming = true)
    (L u : ℝ) (dur : ℤ) : (e.get_sunlight_efficiency L u dur).1 = 0.02 := by
  simp only [MarsEnvironment.get_sunlight_efficiency, he, if_true]
  exact max_eq_left (le_of_lt (eff_storm_core (tau_base_bounds _).1))

lemma env_eff_calm (e : MarsEnvironment) (he : e.is_storming = false)
    (L u : ℝ) (dur : ℤ) :
    (e.get_sunlight_efficiency L u dur).1 =
      Real.exp (-(0.65 - 0.35 * Real.sin (L * (Real.pi / 180)) + 0)) := by
  simp only [MarsEnvironment.get_sunlight_efficiency, he, Bool.false_eq_true, if_false]
  have hb := tau_base_bounds (L * (Real.pi / 180))
  exact max_eq_right (le_of_lt (lt_trans (by norm_num) (eff_calm_core hb.1 hb.2).1))

lemma env_eff_calm_bounds (e : MarsEnvironment) (he : e.is_storming = false)
    (L u : ℝ) (dur : ℤ) :
    5 / 18 < (e.get_sunlight_efficiency L u dur).1 ∧
      (e.get_sunlight_efficiency L u dur).1 < 1 := by
  rw [env_eff_calm e he L u dur]
  have hb := tau_base_bounds (L * (Real.pi / 180))
  exact eff_calm_core hb.1 hb.2

/-- C4: for every season angle, every environment state and every outcome of
the draws, `get_sunlight_efficiency` returns a value in `[0.02, 1]`, and for
a fixed season angle the value returned while a storm is active is strictly
smaller than the value returned with no storm active. -/
theorem sunlight_efficiency_bounds (e1 e2 : MarsEnvironment) (L u1 u2 : ℝ)
    (d1 d2 : ℤ) :
    (0.02 ≤ (e1.get_sunlight_efficiency L u1 d1).1 ∧
      (e1.get_sunlight_efficiency L u1 d1).1 ≤ 1) ∧
    (e1.is_storming = true → e2.is_storming = false →
      (e1.get_sunlight_efficiency L u1 d1).1 < (e2.get_sunlight_efficiency L u2 d2).1) := by
  constructor
  · rcases Bool.eq_false_or_eq_true e1.is_storming with hs | hs
    · rw [env_eff_storm e1 hs L u1 d1]
      norm_num
    · have hb := env_eff_calm_bounds e1 hs L u1 d1
      constructor
      · linarith [hb.1]
      · linarith [hb.2]
  · intro h1 h2
    rw [env_eff_storm e1 h1 L u1 d1]
    have hb := env_eff_calm_bounds e2 h2 L u2 d2
    linarith [hb.1]

/-- C4 witness: concrete storming and calm environment states at the same
season angle. -/
theorem sunlight_efficiency_bounds_witness :
    0.02 ≤ ((MarsEnvironment.mk true 5).get_sunlight_efficiency 100 1 15).1 ∧
    ((MarsEnvironment.mk true 5).get_sunlight_efficiency 100 1 15).1 <
      ((MarsEnvironment.mk false 0).get_sunlight_efficiency 100 1 15).1 := by
  have h := sunlight_efficiency_bounds (MarsEnvironment.mk true 5)
    (MarsEnvironment.mk false 0) 100 1 1 15 15
  exact ⟨h.1.1, h.2 rfl rfl⟩

/-! ### Dispatch-loop lemmas -/

lemma runOxy_avail_eq (cost : ℝ) (needs : Bool) (ds : ℕ → MachineDraw) :
    ∀ (ms : List Machine) (i : ℕ) (avail : ℝ),
      (runOxygenators cost needs ds ms i avail).avail =
        avail - (runOxygenators cost needs ds ms i avail).power := by
  intro ms
  induction ms with
  | nil => intro i avail; simp [runOxygenators]
  | cons m rest ih =>
    intro i avail
    rw [runOxygenators]
    split
    · simp only
      rw [ih]
      ring
    · simp only
      rw [ih]

lemma runOxy_avail_nonneg (cost : ℝ) (needs : Bool) (ds : ℕ → MachineDraw) :
    ∀ (ms : List Machine) (i : ℕ) (avail : ℝ), 0 ≤ avail →
      0 ≤ (runOxygenators cost needs ds ms i avail).avail := by
  intro ms
  induction ms with
  | nil => intro i avail h; simpa [runOxygenators] using h
  | cons m rest ih =>
    intro i avail h
    rw [runOxygenators]
    split
    · rename_i hc
      exact ih (i + 1) (avail - cost) (by linarith [hc.1])
    · exact ih (i + 1) avail h

lemma runOxy_skip (cost : ℝ) (needs : Bool) (ds : ℕ → MachineDraw) :
    ∀ (ms : List Machine) (i : ℕ) (avail : ℝ), avail < cost →
      (runOxygenators cost needs ds ms i avail) =
        { produced := 0, avail := avail, power := 0, machines := ms } := by
  intro ms
  induction ms with
  | nil => intro i avail _; rfl
  | cons m rest ih =>
    intro i avail h
    rw [runOxygenators]
    rw [if_neg (by intro hc; linarith [hc.1])]
    simp only [ih (i + 1) avail h]

lemma runOxy_produced_nonneg (cost : ℝ) (needs : Bool) (ds : ℕ → MachineDraw) :
    ∀ (ms : List Machine) (i : ℕ) (avail : ℝ),
      (∀ m ∈ ms, 0 ≤ m.production_rate) →
      0 ≤ (runOxygenators cost needs ds ms i avail).produced := by
  intro ms
  induction ms with
  | nil => intro i avail _; simp [runOxygenators]
  | cons m rest ih =>
    intro i avail h
    rw [runOxygenators]
    split
    · simp only
      have h1 := daily_check_nonneg m (ds i) (h m (List.mem_cons_self m rest))
      have h2 := ih (i + 1) (avail - cost) (fun x hx => h x (List.mem_cons_of_mem m hx))
      linarith
    · exact ih (i + 1) avail (fun x hx => h x (List.mem_cons_of_mem m hx))

lemma runOxy_rates_nonneg (cost : ℝ) (needs : Bool) (ds : ℕ → MachineDraw) :
    ∀ (ms : List Machine) (i : ℕ) (avail : ℝ),
      (∀ m ∈ ms, 0 ≤ m.production_rate) →
      ∀ m' ∈ (runOxygenators cost needs ds ms i avail).machines, 0 ≤ m'.production_rate := by
  intro ms
  induction ms with
  | nil => intro i avail _ m' hm'; simp [runOxygenators] at hm'
  | cons m rest ih =>
    intro i avail h m' hm'
    rw [runOxygenators] at hm'
    split at hm'
    · simp only [List.mem_cons] at hm'
      rcases hm' with h1 | h1
      · subst h1
        rw [daily_check_production_rate]
        exact h m (List.mem_cons_self m rest)
      · exact ih (i + 1) (avail - cost) (fun x hx => h x (List.mem_cons_of_mem m hx)) m' h1
    · simp only [List.mem_cons] at hm'
      rcases hm' with h1 | h1
      · subst h1
        exact h m' (List.mem_cons_self m' rest)
      · exact ih (i + 1) avail (fun x hx => h x (List.mem_cons_of_mem m hx)) m' h1

lemma runRec_avail_eq (cost : ℝ) (needs : Bool) (ds : ℕ → MachineDraw) :
    ∀ (ms : List Machine) (i : ℕ) (avail waste : ℝ),
      (runReclaimers cost needs ds ms i avail waste).avail =
        avail - (runReclaimers cost needs ds ms i avail waste).power := by
  intro ms
  induction ms with
  | nil => intro i avail waste; simp [runReclaimers]
  | cons m rest ih =>
    intro i avail waste
    rw [runReclaimers]
    split
    · simp only
      rw [ih]
      ring
    · simp only
      rw [ih]

lemma runRec_avail_nonneg (cost : ℝ) (needs : Bool) (ds : ℕ → MachineDraw) :
    ∀ (ms : List Machine) (i : ℕ) (avail waste : ℝ), 0 ≤ avail →
      0 ≤ (runReclaimers cost needs ds ms i avail waste).avail := by
  intro ms
  induction ms with
  | nil => intro i avail waste h; simpa [runReclaimers] using h
  | cons m rest ih =>
    intro i avail waste h
    rw [runReclaimers]
    split
    · rename_i hc
      exact ih (i + 1) (avail - cost) _ (by linarith [hc.1])
    · exact ih (i + 1) avail waste h

lemma runRec_skip (cost : ℝ) (needs : Bool) (ds : ℕ → MachineDraw) :
    ∀ (ms : List Machine) (i : ℕ) (avail waste : ℝ), avail < cost →
      (runReclaimers cost needs ds ms i avail waste) =
        { reclaimed := 0, waste := waste, avail := avail, power := 0, machines := ms } := by
  intro ms
  induction ms with
  | nil => intro i avail waste _; rfl
  | cons m rest ih =>
    intro i avail waste h
    rw [runReclaimers]
    rw [if_neg (by intro hc; linarith [hc.1])]
    simp only [ih (i + 1) avail waste h]

lemma runRec_reclaimed_eq (cost : ℝ) (needs : Bool) (ds : ℕ → MachineDraw) :
    ∀ (ms : List Machine) (i : ℕ) (avail waste : ℝ),
      (runReclaimers cost needs ds ms i avail waste).reclaimed =
        waste - (runReclaimers cost needs ds ms i avail waste).waste := by
  intro ms
  induction ms with
  | nil => intro i avail waste; simp [runReclaimers]
  | cons m rest ih =>
    intro i avail waste
    rw [runReclaimers]
    split
    · simp only
      rw [ih]
      ring
    · simp only
      rw [ih]

lemma runRec_waste_nonneg (cost : ℝ) (needs : Bool) (ds : ℕ → MachineDraw) :
    ∀ (ms : List Machine) (i : ℕ) (avail waste : ℝ), 0 ≤ waste →
      0 ≤ (runReclaimers cost needs ds ms i avail waste).waste := by
  intro ms
  induction ms with
  | nil => intro i avail waste h; simpa [runReclaimers] using h
  | cons m rest ih =>
    intro i avail waste h
    rw [runReclaimers]
    split
    · simp only
      refine ih (i + 1) (avail - cost) _ ?_
      have h1 : min (m.daily_check (ds i)).1 waste ≤ waste := min_le_right _ _
      linarith
    · exact ih (i + 1) avail waste h

lemma runRec_reclaimed_nonneg (cost : ℝ) (needs : Bool) (ds : ℕ → MachineDraw) :
    ∀ (ms : List Machine) (i : ℕ) (avail waste : ℝ), 0 ≤ waste →
      (∀ m ∈ ms, 0 ≤ m.production_rate) →
      0 ≤ (runReclaimers cost needs ds ms i avail waste).reclaimed := by
  intro ms
  induction ms with
  | nil => intro i avail waste h _; simp [runReclaimers]
  | cons m rest ih =>
    intro i avail waste h hr
    rw [runReclaimers]
    split
    · simp only
      have h1 : 0 ≤ min (m.daily_check (ds i)).1 waste :=
        le_min (daily_check_nonneg m (ds i) (hr m (List.mem_cons_self m rest))) h
      have h2 : min (m.daily_check (ds i)).1 waste ≤ waste := min_le_right _ _
      have h3 := ih (i + 1) (avail - cost) (waste - min (m.daily_check (ds i)).1 waste)
        (by linarith) (fun x hx => hr x (List.mem_cons_of_mem m hx))
      linarith
    · exact ih (i + 1) avail waste h (fun x hx => hr x (List.mem_cons_of_mem m hx))

lemma runRec_rates_nonneg (cost : ℝ) (needs : Bool) (ds : ℕ → MachineDraw) :
    ∀ (ms : List Machine) (i : ℕ) (avail waste : ℝ),
      (∀ m ∈ ms, 0 ≤ m.production_rate) →
      ∀ m' ∈ (runReclaimers cost needs ds ms i avail waste).machines,
        0 ≤ m'.production_rate := by
  intro ms
  induction ms with
  | nil => intro i avail waste _ m' hm'; simp [runReclaimers] at hm'
  | cons m rest ih =>
    intro i avail waste h m' hm'
    rw [runReclaimers] at hm'
    split at hm'
    · simp only [List.mem_cons] at hm'
      rcases hm' with h1 | h1
      · subst h1
        rw [daily_check_production_rate]
        exact h m (List.mem_cons_self m rest)
      · exact ih (i + 1) (avail - cost) _ (fun x hx => h x (List.mem_cons_of_mem m hx)) m' h1
    · simp only [List.mem_cons] at hm'
      rcases hm' with h1 | h1
      · subst h1
        exact h m' (List.mem_cons_self m' rest)
      · exact ih (i + 1) avail waste (fun x hx => h x (List.mem_cons_of_mem m hx)) m' h1

/-! ### Configuration lemmas -/

lemma config_facts (mode : String) :
    (MCSimConfig.init mode).daily_o2_consumption = 0.82 ∧
    (MCSimConfig.init mode).daily_water_consumption = 2.5 ∧
    (MCSimConfig.init mode).daily_food_consumption = 3035 ∧
    (MCSimConfig.init mode).daily_base_power_consumption = 85 ∧
    (MCSimConfig.init mode).starting_o2 = 8 ∧
    (MCSimConfig.init mode).max_o2_tank = 50 ∧
    (MCSimConfig.init mode).starting_water = 1000 ∧
    (MCSimConfig.init mode).max_water_tank = 2000 ∧
    (MCSimConfig.init mode).starting_battery = 500 ∧
    (MCSimConfig.init mode).starting_food = 50000 ∧
    (MCSimConfig.init mode).crop_daily_water_need = 10 ∧
    (MCSimConfig.init mode).crop_food_production = 30000 ∧
    (MCSimConfig.init mode).crop_o2_production = 1 ∧
    (MCSimConfig.init mode).oxygenator_mtbf = 120 ∧
    (MCSimConfig.init mode).num_water_reclaimers = 1 ∧
    (MCSimConfig.init mode).water_reclaimer_mtbf = 120 ∧
    (MCSimConfig.init mode).water_reclaimer_power_cost = 3 ∧
    (MCSimConfig.init mode).water_reclamation_rate = 30 ∧
    (MCSimConfig.init mode).water_recycle_efficiency = 0.97 := by
  unfold MCSimConfig.init
  by_cases hA : mode = "OXYGENATOR_REDUNDANCY_TEST" <;>
    by_cases hB : mode = "BATTERY_TEST" <;>
      simp [hA, hB]

lemma config_facts_pos (mode : String) :
    0 ≤ (MCSimConfig.init mode).oxygenator_power_cost ∧
    0 ≤ (MCSimConfig.init mode).o2_production_rate ∧
    0 ≤ (MCSimConfig.init mode).solar_capacity ∧
    0 ≤ (MCSimConfig.init mode).max_battery := by
  unfold MCSimConfig.init
  by_cases hA : mode = "OXYGENATOR_REDUNDANCY_TEST" <;>
    by_cases hB : mode = "BATTERY_TEST" <;>
      simp [hA, hB] <;> norm_num

/-- Validity of a configuration in the sense of the specification: all
rates and capacities non-negative, strictly positive mean times between
failures (so the failure-probability division is well-defined). -/
def ValidConfig (c : MCSimConfig) : Prop :=
  0 ≤ c.daily_o2_consumption ∧ 0 ≤ c.daily_water_consumption ∧
  0 ≤ c.daily_food_consumption ∧ 0 ≤ c.daily_base_power_consumption ∧
  0 ≤ c.starting_o2 ∧ 0 ≤ c.max_o2_tank ∧ 0 ≤ c.starting_water ∧
  0 ≤ c.max_water_tank ∧ 0 ≤ c.starting_battery ∧ 0 ≤ c.starting_food ∧
  0 ≤ c.crop_daily_water_need ∧ 0 ≤ c.crop_food_production ∧
  0 ≤ c.crop_o2_production ∧ 0 < c.oxygenator_mtbf ∧
  0 ≤ c.oxygenator_power_cost ∧ 0 ≤ c.o2_production_rate ∧
  0 < c.water_reclaimer_mtbf ∧ 0 ≤ c.water_reclaimer_power_cost ∧
  0 ≤ c.water_reclamation_rate ∧ 0 ≤ c.water_recycle_efficiency ∧
  0 ≤ c.solar_capacity ∧ 0 ≤ c.max_battery

/-- C7 (amended): `MCSimConfig` construction takes only a scenario mode
string, hard-codes every numeric value, and performs no validation; every
configuration it can produce (for any mode string whatsoever) is valid, and
the module-level crew size is positive, so no invalid value can enter the
simulation through the configuration constructor. -/
theorem config_modes_valid : ∀ mode : String,
    ValidConfig (MCSimConfig.init mode) ∧ 0 < crew_size := by
  intro mode
  constructor
  · unfold ValidConfig MCSimConfig.init
    by_cases hA : mode = "OXYGENATOR_REDUNDANCY_TEST" <;>
      by_cases hB : mode = "BATTERY_TEST" <;>
        simp [hA, hB] <;> norm_num
  · norm_num [crew_size]

/-- C7 counterexample: nothing rejects an invalid value at construction
time.  A machine constructed with `mtbf = 0` is accepted without any
validation error, and the invalid value flows into the failure-probability
formula of `daily_check`, where the Python division `-1 / mtbf` raises
`ZeroDivisionError` at simulation time rather than construction time. -/
theorem config_no_validation_counterexample :
    (Machine.init ("Oxy-0") 7.5 0).mtbf = 0 ∧
    (Machine.init ("Oxy-0") 7.5 0).is_broken = false ∧
    fail_prob_py ((Machine.init ("Oxy-0") 7.5 0).mtbf) =
      Except.error ("ZeroDivisionError") := by
  refine ⟨rfl, rfl, ?_⟩
  unfold fail_prob_py pydiv
  simp [Machine.init, Except.map]

/-- C6: calling the Monte Carlo aggregator with `trial_count = 0` does not
return a defined result: the Python expression
`(success_count / n_simulations) * 100` divides by zero and the call raises
`ZeroDivisionError` (for every experiment mode and every draw oracle). -/
theorem run_mcs_zero_trials_raises (mode : String) (O : ℕ → ℕ → DayDraws) :
    run_mcs mode 0 O = Except.error ("ZeroDivisionError") := by
  unfold run_mcs pydiv
  simp [Except.map]

lemma cfg_daily_water (mode : String) :
    (MCSimConfig.init mode).daily_water_consumption = 2.5 :=
  (config_facts mode).2.1

lemma cfg_crop_water_need (mode : String) :
    (MCSimConfig.init mode).crop_daily_water_need = 10 :=
  (config_facts mode).2.2.2.2.2.2.2.2.2.2.1

lemma cfg_recycle (mode : String) :
    (MCSimConfig.init mode).water_recycle_efficiency = 0.97 :=
  (config_facts mode).2.2.2.2.2.2.2.2.2.2.2.2.2.2.2.2.2.2

lemma cfg_rec_rate (mode : String) :
    (MCSimConfig.init mode).water_reclamation_rate = 30 :=
  (config_facts mode).2.2.2.2.2.2.2.2.2.2.2.2.2.2.2.2.2.1

/-! ### Reachability invariant and C2 -/

lemma total_water_need_nonneg (crew : ℕ) (c : MarsColony)
    (h1 : 0 ≤ c.cfg.daily_water_consumption)
    (h2 : 0 ≤ c.cfg.crop_daily_water_need) :
    0 ≤ c.total_water_need crew := by
  unfold MarsColony.total_water_need MarsColony.base_water_need
  have h3 : (0 : ℝ) ≤ c.cfg.daily_water_consumption * crew :=
    mul_nonneg h1 (Nat.cast_nonneg crew)
  split <;> linarith

lemma waste_before_nonneg (crew : ℕ) (c : MarsColony)
    (h0 : 0 ≤ c.waste_water)
    (h1 : 0 ≤ c.cfg.daily_water_consumption)
    (h2 : 0 ≤ c.cfg.crop_daily_water_need)
    (h3 : 0 ≤ c.cfg.water_recycle_efficiency) :
    0 ≤ c.waste_before crew := by
  unfold MarsColony.waste_before
  have h4 := total_water_need_nonneg crew c h1 h2
  have h5 : (0 : ℝ) ≤ c.total_water_need crew * c.cfg.water_recycle_efficiency :=
    mul_nonneg h4 h3
  linarith

lemma reachable_inv (crew : ℕ) (mode : String) (c : MarsColony)
    (h : Reachable crew mode c) :
    c.cfg = MCSimConfig.init mode ∧ 0 ≤ c.waste_water ∧
    (∀ m ∈ c.water_reclaimers, 0 ≤ m.production_rate) := by
  induction h with
  | init =>
    refine ⟨rfl, le_rfl, ?_⟩
    intro m hm
    unfold MarsColony.init at hm
    simp only [List.mem_map] at hm
    obtain ⟨i, _, hi⟩ := hm
    rw [← hi]
    show 0 ≤ (MCSimConfig.init mode).water_reclamation_rate
    rw [cfg_rec_rate]
    norm_num
  | step c d _ ih =>
    obtain ⟨hcfg, hw, hr⟩ := ih
    refine ⟨hcfg, ?_, ?_⟩
    · show 0 ≤ (c.rec_result crew d).waste
      unfold MarsColony.rec_result
      apply runRec_waste_nonneg
      exact waste_before_nonneg crew c hw
        (by rw [hcfg, cfg_daily_water]; norm_num)
        (by rw [hcfg, cfg_crop_water_need]; norm_num)
        (by rw [hcfg, cfg_recycle]; norm_num)
    · show ∀ m' ∈ (c.rec_result crew d).machines, 0 ≤ m'.production_rate
      unfold MarsColony.rec_result
      exact runRec_rates_nonneg _ _ _ _ _ _ _ hr

/-- C2: for every reachable colony state and every outcome of the draws,
the total water reclaimed in the reclaimer dispatch phase of
`MarsColony.step` is at most the waste-water stock as it stood at the start
of that phase, and consequently the waste-water stock is non-negative after
every step. -/
theorem reclaimer_bounded_by_waste (crew : ℕ) (mode : String) (c : MarsColony)
    (h : Reachable crew mode c) (d : DayDraws) :
    (c.rec_result crew d).reclaimed ≤ c.waste_before crew ∧
    0 ≤ (c.step crew d).waste_water := by
  obtain ⟨hcfg, hw, hr⟩ := reachable_inv crew mode c h
  have hwb : 0 ≤ c.waste_before crew :=
    waste_before_nonneg crew c hw
      (by rw [hcfg, cfg_daily_water]; norm_num)
      (by rw [hcfg, cfg_crop_water_need]; norm_num)
      (by rw [hcfg, cfg_recycle]; norm_num)
  have hwaste : 0 ≤ (c.rec_result crew d).waste := by
    unfold MarsColony.rec_result
    exact runRec_waste_nonneg _ _ _ _ _ _ _ hwb
  constructor
  · have heq : (c.rec_result crew d).reclaimed =
        c.waste_before crew - (c.rec_result crew d).waste := by
      unfold MarsColony.rec_result
      exact runRec_reclaimed_eq _ _ _ _ _ _ _
    rw [heq]
    linarith
  · exact hwaste

/-- One fixed draw bundle used by concrete witnesses: no storm trigger, a
15-day storm duration if one were drawn, neutral biological factor, and
non-firing machine draws. -/
noncomputable def oneDraws : DayDraws :=
  { env_u := 1, env_dur := 15, bio := 1,
    oxyD := fun _ => ⟨1, 1⟩, recD := fun _ => ⟨1, 1⟩ }

/-- C2 witness: the initial CONTROL colony is reachable and the bound holds
there for a concrete draw bundle. -/
theorem reclaimer_bounded_by_waste_witness :
    ((MarsColony.init (MCSimConfig.init ("CONTROL"))).rec_result 6 oneDraws).reclaimed ≤
      (MarsColony.init (MCSimConfig.init ("CONTROL"))).waste_before 6 ∧
    0 ≤ ((MarsColony.init (MCSimConfig.init ("CONTROL"))).step 6 oneDraws).waste_water :=
  reclaimer_bounded_by_waste 6 "CONTROL" _ Reachable.init oneDraws

/-! ### Power budget and C10 -/

lemma battery_pre_eq_rec_avail (crew : ℕ) (c : MarsColony) (d : DayDraws) :
    c.battery_pre crew d = (c.rec_result crew d).avail := by
  have h1 : (c.oxy_result d).avail = c.avail0 d - (c.oxy_result d).power := by
    unfold MarsColony.oxy_result
    exact runOxy_avail_eq _ _ _ _ _ _
  have h2 : (c.rec_result crew d).avail =
      (c.oxy_result d).avail - (c.rec_result crew d).power := by
    unfold MarsColony.rec_result
    exact runRec_avail_eq _ _ _ _ _ _ _
  unfold MarsColony.battery_pre MarsColony.total_power_need
  unfold MarsColony.avail0 at h1
  rw [h2, h1]
  ring

lemma battery_pre_neg_iff (crew : ℕ) (c : MarsColony) (d : DayDraws)
    (hoc : 0 ≤ c.cfg.oxygenator_power_cost)
    (hrc : 0 ≤ c.cfg.water_reclaimer_power_cost) :
    (c.battery_pre crew d < 0 ↔ c.avail0 d < 0) := by
  constructor
  · intro h
    by_contra h'
    push_neg at h'
    have ho : 0 ≤ (c.oxy_result d).avail := by
      unfold MarsColony.oxy_result
      exact runOxy_avail_nonneg _ _ _ _ _ _ h'
    have hr : 0 ≤ (c.rec_result crew d).avail := by
      unfold MarsColony.rec_result
      exact runRec_avail_nonneg _ _ _ _ _ _ _ ho
    rw [battery_pre_eq_rec_avail] at h
    linarith
  · intro h
    have ho : c.oxy_result d =
        { produced := 0, avail := c.avail0 d, power := 0, machines := c.oxygenators } := by
      unfold MarsColony.oxy_result
      exact runOxy_skip _ _ _ _ _ _ (by linarith)
    have hr : c.rec_result crew d =
        { reclaimed := 0, waste := c.waste_before crew, avail := c.avail0 d,
          power := 0, machines := c.water_reclaimers } := by
      unfold MarsColony.rec_result
      rw [ho]
      exact runRec_skip _ _ _ _ _ _ _ (by linarith)
    unfold MarsColony.battery_pre MarsColony.total_power_need
    rw [ho, hr]
    unfold MarsColony.avail0 at h
    simp only
    linarith

/-- C10: after `MarsColony.step`, the pre-clamp battery value equals the old
battery plus generation minus the base draw minus the dispatched machine
power costs; that value is negative exactly when the provisional budget
(battery + generation − base draw) was already negative before any machine
ran; and "Power Failure" is recorded by the step exactly when that
provisional budget is negative. -/
theorem power_failure_iff_base_uncovered (crew : ℕ) (c : MarsColony) (d : DayDraws)
    (hoc : 0 ≤ c.cfg.oxygenator_power_cost)
    (hrc : 0 ≤ c.cfg.water_reclaimer_power_cost)
    (hmb : 0 ≤ c.cfg.max_battery)
    (hcause : c.cause_of_death = "") :
    c.battery_pre crew d =
      c.battery + c.power_gen d - c.cfg.daily_base_power_consumption
        - ((c.oxy_result d).power + (c.rec_result crew d).power) ∧
    (c.battery_pre crew d < 0 ↔ c.avail0 d < 0) ∧
    ((c.step crew d).cause_of_death = "Power Failure" ↔ c.avail0 d < 0) := by
  have hiff := battery_pre_neg_iff crew c d hoc hrc
  have hpost : (c.battery_post crew d < 0 ↔ c.battery_pre crew d < 0) := by
    unfold MarsColony.battery_post
    split
    · rename_i hgt
      constructor
      · intro hl; linarith
      · intro hl; linarith
    · exact Iff.rfl
  refine ⟨?_, hiff, ?_⟩
  · unfold MarsColony.battery_pre MarsColony.total_power_need
    ring
  · show (if c.battery_post crew d < 0 then "Power Failure"
      else if c.o2_post crew d < 0 then "Suffocation"
      else if c.water_post crew d < 0 then "Dehydration"
      else if c.food_post crew d < 0 then "Starvation"
      else c.cause_of_death) = "Power Failure" ↔ c.avail0 d < 0
    constructor
    · intro h
      by_contra h'
      rw [← hiff, ← hpost] at h'
      rw [if_neg h'] at h
      split at h
      · exact absurd h (by decide)
      · split at h
        · exact absurd h (by decide)
        · split at h
          · exact absurd h (by decide)
          · rw [hcause] at h
            exact absurd h (by decide)
    · intro h
      rw [← hiff, ← hpost] at h
      rw [if_pos h]

lemma cfg_rec_power (mode : String) :
    (MCSimConfig.init mode).water_reclaimer_power_cost = 3 :=
  (config_facts mode).2.2.2.2.2.2.2.2.2.2.2.2.2.2.2.2.1

/-- C10 witness: the recorded-cause equivalence at the initial CONTROL
colony under a concrete draw bundle. -/
theorem power_failure_iff_base_uncovered_witness :
    ((MarsColony.init (MCSimConfig.init ("CONTROL"))).step 6 oneDraws).cause_of_death =
        "Power Failure" ↔
      (MarsColony.init (MCSimConfig.init ("CONTROL"))).avail0 oneDraws < 0 :=
  (power_failure_iff_base_uncovered 6 (MarsColony.init (MCSimConfig.init ("CONTROL")))
    oneDraws (config_facts_pos ("CONTROL")).1
    (show (0 : ℝ) ≤ (MCSimConfig.init ("CONTROL")).water_reclaimer_power_cost by
      rw [cfg_rec_power]; norm_num)
    (config_facts_pos ("CONTROL")).2.2.2 rfl).2.2

/-! ### Concrete CONTROL-mode trajectory (C8) -/

/-- The CONTROL configuration written out field by field. -/
noncomputable def ctrlConfig : MCSimConfig :=
  { mode := "CONTROL"
    daily_o2_consumption := 0.82
    daily_water_consumption := 2.5
    daily_food_consumption := 3035
    daily_base_power_consumption := 85
    starting_o2 := 8
    max_o2_tank := 50
    starting_water := 1000
    max_water_tank := 2000
    starting_battery := 500
    starting_food := 50000
    crop_daily_water_need := 10
    crop_food_production := 30000
    crop_o2_production := 1
    num_oxygenators := 1
    oxygenator_mtbf := 120
    oxygenator_power_cost := 12
    o2_production_rate := 7.5
    num_water_reclaimers := 1
    water_reclaimer_mtbf := 120
    water_reclaimer_power_cost := 3
    water_reclamation_rate := 30
    water_recycle_efficiency := 0.97
    solar_capacity := 45
    max_battery := 500 }

lemma ctrlConfig_eq : MCSimConfig.init ("CONTROL") = ctrlConfig := by
  unfold MCSimConfig.init ctrlConfig
  simp only [if_neg (by decide : ¬ ("CONTROL" : String) = "OXYGENATOR_REDUNDANCY_TEST"),
    if_neg (by decide : ¬ ("CONTROL" : String) = "BATTERY_TEST")]

/-- The single CONTROL oxygenator in its fresh state. -/
noncomputable def oxyM : Machine :=
  { name := "Oxy-0", production_rate := 7.5, mtbf := 120,
    is_broken := false, days_to_repair := 0 }

/-- The single CONTROL water reclaimer in its fresh state. -/
noncomputable def recM : Machine :=
  { name := "WaterRec-0", production_rate := 30, mtbf := 120,
    is_broken := false, days_to_repair := 0 }

/-- The CONTROL crop module at full health. -/
noncomputable def cropsC : CropModule :=
  { base_food := 30000, base_o2 := 1, health := 1 }

/-- Machine draws that never fire a failure. -/
noncomputable def f1 : ℕ → MachineDraw := fun _ => ⟨1, 1⟩

/-- Day draws with a given storm-trigger draw, neutral biological factor,
15-day storm duration and non-firing machine draws. -/
noncomputable def calmDraws (u : ℝ) : DayDraws :=
  { env_u := u, env_dur := 15, bio := 1, oxyD := f1, recD := f1 }

/-- Draw oracle of the counterexample mission: no storm trigger except on
iteration 201 (simulated day 202, inside the 200-300 degree risk window),
where a 15-day storm is triggered; machines never fail; crops draw the
neutral biological factor. -/
noncomputable def stormOracle : ℕ → DayDraws :=
  fun n => calmDraws (if n = 201 then 0 else 1)

/-- A CONTROL colony state along the counterexample trajectory: alive,
no cause recorded, empty waste tank, full-health crops, fresh machines. -/
noncomputable def ctrlState (day : ℤ) (o2 water battery food : ℝ)
    (e : MarsEnvironment) : MarsColony :=
  { cfg := ctrlConfig, day := day, alive := true, cause_of_death := "",
    o2 := o2, water := water, waste_water := 0, battery := battery, food := food,
    env := e, crops := cropsC,
    oxygenators := [oxyM], water_reclaimers := [recM] }

lemma init_ctrl :
    MarsColony.init (MCSimConfig.init ("CONTROL")) =
      ctrlState 0 8 1000 500 50000 (MarsEnvironment.mk false 0) := by
  rw [ctrlConfig_eq]
  unfold MarsColony.init ctrlState ctrlConfig oxyM recM cropsC Machine.init
  norm_num
  refine ⟨?_, ?_⟩ <;>
    · rw [show List.range 1 = [0] from rfl]
      rfl

lemma fail_prob_le_one (t : ℝ) : fail_prob t ≤ 1 := by
  unfold fail_prob
  have := Real.exp_pos (-1 / t)
  linarith

lemma oxyM_check : oxyM.daily_check ⟨1, 1⟩ = (7.5, oxyM) :=
  daily_check_ok oxyM ⟨1, 1⟩ rfl (not_lt.mpr (fail_prob_le_one 120))

lemma recM_check : recM.daily_check ⟨1, 1⟩ = (30, recM) :=
  daily_check_ok recM ⟨1, 1⟩ rfl (not_lt.mpr (fail_prob_le_one 120))

lemma cropsC_grow : cropsC.grow true 1 = ((30000, 1), cropsC) := by
  have h : ¬ newHealth cropsC true ≤ 0 := by
    unfold newHealth cropsC
    norm_num
  rw [grow_eq_live _ _ _ h]
  unfold newHealth bioClamp cropsC
  norm_num

lemma env_step_calm_no_trigger (k : ℤ) (L u : ℝ) (dur : ℤ) (hu : 0.005 ≤ u) :
    ((MarsEnvironment.mk false k).get_sunlight_efficiency L u dur).2 =
      MarsEnvironment.mk false k := by
  unfold MarsEnvironment.get_sunlight_efficiency
  simp only [Bool.false_eq_true, if_false]
  rw [if_neg (by intro hc; linarith [hc.2.2])]

lemma env_step_trigger (k : ℤ) (L u : ℝ) (dur : ℤ) (h1 : 200 < L) (h2 : L < 300)
    (hu : u < 0.005) :
    ((MarsEnvironment.mk false k).get_sunlight_efficiency L u dur).2 =
      MarsEnvironment.mk true dur := by
  unfold MarsEnvironment.get_sunlight_efficiency
  simp only [Bool.false_eq_true, if_false]
  rw [if_pos ⟨h1, h2, hu⟩]

lemma env_step_storm (k : ℤ) (hk : 2 ≤ k) (L u : ℝ) (dur : ℤ) :
    ((MarsEnvironment.mk true k).get_sunlight_efficiency L u dur).2 =
      MarsEnvironment.mk true (k - 1) := by
  unfold MarsEnvironment.get_sunlight_efficiency
  simp only [if_true]
  rw [if_neg (by omega)]

lemma clamp_eq_min (x m : ℝ) : (if x > m then m else x) = min m x := by
  split
  · exact (min_eq_left (le_of_lt (by assumption))).symm
  · exact (min_eq_right (not_lt.mp (by assumption))).symm

lemma runOxy_single_run (cost : ℝ) (ds : ℕ → MachineDraw) (m : Machine) (avail : ℝ)
    (h : cost ≤ avail) (p : ℝ) (m' : Machine) (hm : m.daily_check (ds 0) = (p, m')) :
    runOxygenators cost true ds [m] 0 avail =
      { produced := p, avail := avail - cost, power := cost, machines := [m'] } := by
  rw [runOxygenators, if_pos (⟨h, rfl⟩ : cost ≤ avail ∧ true = true)]
  simp [runOxygenators, hm]

lemma runOxy_no_need (cost : ℝ) (ds : ℕ → MachineDraw) :
    ∀ (ms : List Machine) (i : ℕ) (avail : ℝ),
      runOxygenators cost false ds ms i avail =
        { produced := 0, avail := avail, power := 0, machines := ms } := by
  intro ms
  induction ms with
  | nil => intro i avail; rfl
  | cons m rest ih =>
    intro i avail
    rw [runOxygenators]
    rw [if_neg (by intro hc; exact absurd hc.2 (by simp))]
    simp only [ih (i + 1) avail]

lemma runRec_single_run (cost : ℝ) (ds : ℕ → MachineDraw) (m : Machine)
    (avail waste : ℝ) (h : cost ≤ avail) (p : ℝ) (m' : Machine)
    (hm : m.daily_check (ds 0) = (p, m')) :
    runReclaimers cost true ds [m] 0 avail waste =
      { reclaimed := min p waste, waste := waste - min p waste,
        avail := avail - cost, power := cost, machines := [m'] } := by
  rw [runReclaimers, if_pos (⟨h, rfl⟩ : cost ≤ avail ∧ true = true)]
  simp [runReclaimers, hm]

lemma calm_step_full (d k : ℤ) (w f u : ℝ) (hu : 0.005 ≤ u)
    (hw1 : 10 ≤ w) (hw2 : w ≤ 1990) (hf : 0 ≤ f) :
    (ctrlState d 50 w 500 f (MarsEnvironment.mk false k)).step 0 (calmDraws u) =
      ctrlState (d + 1) 50 (w - 0.3) 500 (f + 30000) (MarsEnvironment.mk false k) := by
  have hE : 5 / 18 < (ctrlState d 50 w 500 f (MarsEnvironment.mk false k)).sun_eff (calmDraws u) ∧ (ctrlState d 50 w 500 f (MarsEnvironment.mk false k)).sun_eff (calmDraws u) < 1 :=
    env_eff_calm_bounds (MarsEnvironment.mk false k) rfl ((ctrlState d 50 w 500 f (MarsEnvironment.mk false k)).Ls) u 15
  have hpg : (ctrlState d 50 w 500 f (MarsEnvironment.mk false k)).power_gen (calmDraws u) = 45 * (ctrlState d 50 w 500 f (MarsEnvironment.mk false k)).sun_eff (calmDraws u) * 8 := rfl
  have havail : (ctrlState d 50 w 500 f (MarsEnvironment.mk false k)).avail0 (calmDraws u) = 500 + 45 * (ctrlState d 50 w 500 f (MarsEnvironment.mk false k)).sun_eff (calmDraws u) * 8 - 85 := rfl
  have hgate : (ctrlState d 50 w 500 f (MarsEnvironment.mk false k)).crop_water_available 0 = true :=
    decide_eq_true (show (2.5 : ℝ) * ((0 : ℕ) : ℝ) + 10 ≤ w by push_cast; linarith)
  have htwn : (ctrlState d 50 w 500 f (MarsEnvironment.mk false k)).total_water_need 0 = 10 := by
    unfold MarsColony.total_water_need
    rw [hgate, if_pos rfl]
    show (2.5 : ℝ) * ((0 : ℕ) : ℝ) + 10 = 10
    push_cast
    ring
  have hwb : (ctrlState d 50 w 500 f (MarsEnvironment.mk false k)).waste_before 0 = 9.7 := by
    unfold MarsColony.waste_before
    rw [htwn]
    show (0 : ℝ) + 10 * 0.97 = 9.7
    norm_num
  have hcrop : (ctrlState d 50 w 500 f (MarsEnvironment.mk false k)).crop_result 0 (calmDraws u) = ((30000, 1), cropsC) := by
    unfold MarsColony.crop_result
    rw [hgate]
    exact cropsC_grow
  have hno2 : (decide ((ctrlState d 50 w 500 f (MarsEnvironment.mk false k)).o2 < (ctrlState d 50 w 500 f (MarsEnvironment.mk false k)).cfg.max_o2_tank)) = false :=
    decide_eq_false (show ¬ (50 : ℝ) < 50 from lt_irrefl 50)
  have hoxy : (ctrlState d 50 w 500 f (MarsEnvironment.mk false k)).oxy_result (calmDraws u) =
      { produced := 0, avail := (ctrlState d 50 w 500 f (MarsEnvironment.mk false k)).avail0 (calmDraws u), power := 0, machines := [oxyM] } := by
    unfold MarsColony.oxy_result
    rw [hno2]
    exact runOxy_no_need 12 f1 [oxyM] 0 _
  have hw2000 : decide ((ctrlState d 50 w 500 f (MarsEnvironment.mk false k)).water < (ctrlState d 50 w 500 f (MarsEnvironment.mk false k)).cfg.max_water_tank) = true :=
    decide_eq_true (show w < (2000 : ℝ) by linarith)
  have h3a : (3 : ℝ) ≤ (ctrlState d 50 w 500 f (MarsEnvironment.mk false k)).avail0 (calmDraws u) := by
    rw [havail]
    nlinarith [hE.1]
  have hrec : (ctrlState d 50 w 500 f (MarsEnvironment.mk false k)).rec_result 0 (calmDraws u) =
      { reclaimed := 9.7, waste := 0, avail := (ctrlState d 50 w 500 f (MarsEnvironment.mk false k)).avail0 (calmDraws u) - 3,
        power := 3, machines := [recM] } := by
    unfold MarsColony.rec_result
    rw [hw2000, hoxy, hwb]
    show runReclaimers 3 true f1 [recM] 0 ((ctrlState d 50 w 500 f (MarsEnvironment.mk false k)).avail0 (calmDraws u)) 9.7 = _
    rw [runRec_single_run 3 f1 recM ((ctrlState d 50 w 500 f (MarsEnvironment.mk false k)).avail0 (calmDraws u)) 9.7 h3a 30 recM recM_check]
    rw [show min (30 : ℝ) 9.7 = 9.7 from min_eq_right (by norm_num)]
    norm_num
  have hbatpre : (ctrlState d 50 w 500 f (MarsEnvironment.mk false k)).battery_pre 0 (calmDraws u) =
      500 + 45 * (ctrlState d 50 w 500 f (MarsEnvironment.mk false k)).sun_eff (calmDraws u) * 8 - 88 := by
    unfold MarsColony.battery_pre MarsColony.total_power_need
    rw [hoxy, hrec]
    show 500 + (ctrlState d 50 w 500 f (MarsEnvironment.mk false k)).power_gen (calmDraws u) - (85 + 0 + 3) = _
    rw [hpg]
    ring
  have hbat : (ctrlState d 50 w 500 f (MarsEnvironment.mk false k)).battery_post 0 (calmDraws u) = 500 := by
    unfold MarsColony.battery_post
    rw [hbatpre]
    show (if 500 + 45 * (ctrlState d 50 w 500 f (MarsEnvironment.mk false k)).sun_eff (calmDraws u) * 8 - 88 > (500 : ℝ) then (500 : ℝ)
      else 500 + 45 * (ctrlState d 50 w 500 f (MarsEnvironment.mk false k)).sun_eff (calmDraws u) * 8 - 88) = 500
    rw [if_pos (by nlinarith [hE.1])]
  have ho2pre : (ctrlState d 50 w 500 f (MarsEnvironment.mk false k)).o2_pre 0 (calmDraws u) = 51 := by
    unfold MarsColony.o2_pre
    rw [hoxy, hcrop]
    show (50 : ℝ) + (0 + 1 - 0.82 * ((0 : ℕ) : ℝ)) = 51
    push_cast
    ring
  have ho2 : (ctrlState d 50 w 500 f (MarsEnvironment.mk false k)).o2_post 0 (calmDraws u) = 50 := by
    unfold MarsColony.o2_post
    rw [ho2pre]
    show (if (51 : ℝ) > 50 then (50 : ℝ) else 51) = 50
    rw [if_pos (by norm_num)]
  have hwatpre : (ctrlState d 50 w 500 f (MarsEnvironment.mk false k)).water_pre 0 (calmDraws u) = w - 0.3 := by
    unfold MarsColony.water_pre
    rw [hrec, htwn]
    show w + ((9.7 : ℝ) - 10) = w - 0.3
    ring
  have hwat : (ctrlState d 50 w 500 f (MarsEnvironment.mk false k)).water_post 0 (calmDraws u) = w - 0.3 := by
    unfold MarsColony.water_post
    rw [hwatpre]
    show (if w - 0.3 > (2000 : ℝ) then (2000 : ℝ) else w - 0.3) = w - 0.3
    rw [if_neg (by linarith)]
  have hfood : (ctrlState d 50 w 500 f (MarsEnvironment.mk false k)).food_post 0 (calmDraws u) = f + 30000 := by
    unfold MarsColony.food_post
    rw [hcrop]
    show f + ((30000 : ℝ) - 3035 * ((0 : ℕ) : ℝ)) = f + 30000
    push_cast
    ring
  have henv2 : ((ctrlState d 50 w 500 f (MarsEnvironment.mk false k)).env_result (calmDraws u)).2 = MarsEnvironment.mk false k :=
    env_step_calm_no_trigger k ((ctrlState d 50 w 500 f (MarsEnvironment.mk false k)).Ls) u 15 hu
  unfold MarsColony.step
  rw [hbat, ho2, hwat, hfood, hrec, hcrop, hoxy, henv2]
  rw [if_neg (show ¬ (500 : ℝ) < 0 by norm_num), if_neg (show ¬ (50 : ℝ) < 0 by norm_num),
    if_neg (show ¬ w - 0.3 < 0 by linarith), if_neg (show ¬ f + 30000 < 0 by linarith)]
  rw [if_neg (show ¬ (500 : ℝ) < 0 by norm_num), if_neg (show ¬ (50 : ℝ) < 0 by norm_num),
    if_neg (show ¬ w - 0.3 < 0 by linarith), if_neg (show ¬ f + 30000 < 0 by linarith)]
  rfl

lemma calm_step_ramp (d k : ℤ) (x w f u : ℝ) (hu : 0.005 ≤ u)
    (hx0 : 0 ≤ x) (hx : x < 50) (hw1 : 10 ≤ w) (hw2 : w ≤ 1990) (hf : 0 ≤ f) :
    (ctrlState d x w 500 f (MarsEnvironment.mk false k)).step 0 (calmDraws u) =
      ctrlState (d + 1) (min 50 (x + 8.5)) (w - 0.3) 500 (f + 30000)
        (MarsEnvironment.mk false k) := by
  have hE : 5 / 18 < (ctrlState d x w 500 f (MarsEnvironment.mk false k)).sun_eff (calmDraws u) ∧ (ctrlState d x w 500 f (MarsEnvironment.mk false k)).sun_eff (calmDraws u) < 1 :=
    env_eff_calm_bounds (MarsEnvironment.mk false k) rfl ((ctrlState d x w 500 f (MarsEnvironment.mk false k)).Ls) u 15
  have hpg : (ctrlState d x w 500 f (MarsEnvironment.mk false k)).power_gen (calmDraws u) = 45 * (ctrlState d x w 500 f (MarsEnvironment.mk false k)).sun_eff (calmDraws u) * 8 := rfl
  have havail : (ctrlState d x w 500 f (MarsEnvironment.mk false k)).avail0 (calmDraws u) = 500 + 45 * (ctrlState d x w 500 f (MarsEnvironment.mk false k)).sun_eff (calmDraws u) * 8 - 85 := rfl
  have hgate : (ctrlState d x w 500 f (MarsEnvironment.mk false k)).crop_water_available 0 = true :=
    decide_eq_true (show (2.5 : ℝ) * ((0 : ℕ) : ℝ) + 10 ≤ w by push_cast; linarith)
  have htwn : (ctrlState d x w 500 f (MarsEnvironment.mk false k)).total_water_need 0 = 10 := by
    unfold MarsColony.total_water_need
    rw [hgate, if_pos rfl]
    show (2.5 : ℝ) * ((0 : ℕ) : ℝ) + 10 = 10
    push_cast
    ring
  have hwb : (ctrlState d x w 500 f (MarsEnvironment.mk false k)).waste_before 0 = 9.7 := by
    unfold MarsColony.waste_before
    rw [htwn]
    show (0 : ℝ) + 10 * 0.97 = 9.7
    norm_num
  have hcrop : (ctrlState d x w 500 f (MarsEnvironment.mk false k)).crop_result 0 (calmDraws u) = ((30000, 1), cropsC) := by
    unfold MarsColony.crop_result
    rw [hgate]
    exact cropsC_grow
  have hno2 : (decide ((ctrlState d x w 500 f (MarsEnvironment.mk false k)).o2 < (ctrlState d x w 500 f (MarsEnvironment.mk false k)).cfg.max_o2_tank)) = true :=
    decide_eq_true hx
  have h12a : (12 : ℝ) ≤ (ctrlState d x w 500 f (MarsEnvironment.mk false k)).avail0 (calmDraws u) := by
    rw [havail]
    nlinarith [hE.1]
  have hoxy : (ctrlState d x w 500 f (MarsEnvironment.mk false k)).oxy_result (calmDraws u) =
      { produced := 7.5, avail := (ctrlState d x w 500 f (MarsEnvironment.mk false k)).avail0 (calmDraws u) - 12, power := 12,
        machines := [oxyM] } := by
    unfold MarsColony.oxy_result
    rw [hno2]
    show runOxygenators 12 true f1 [oxyM] 0 ((ctrlState d x w 500 f (MarsEnvironment.mk false k)).avail0 (calmDraws u)) = _
    exact runOxy_single_run 12 f1 oxyM ((ctrlState d x w 500 f (MarsEnvironment.mk false k)).avail0 (calmDraws u)) h12a 7.5 oxyM oxyM_check
  have hw2000 : decide ((ctrlState d x w 500 f (MarsEnvironment.mk false k)).water < (ctrlState d x w 500 f (MarsEnvironment.mk false k)).cfg.max_water_tank) = true :=
    decide_eq_true (show w < (2000 : ℝ) by linarith)
  have h3a : (3 : ℝ) ≤ (ctrlState d x w 500 f (MarsEnvironment.mk false k)).avail0 (calmDraws u) - 12 := by
    rw [havail]
    nlinarith [hE.1]
  have hrec : (ctrlState d x w 500 f (MarsEnvironment.mk false k)).rec_result 0 (calmDraws u) =
      { reclaimed := 9.7, waste := 0, avail := (ctrlState d x w 500 f (MarsEnvironment.mk false k)).avail0 (calmDraws u) - 12 - 3,
        power := 3, machines := [recM] } := by
    unfold MarsColony.rec_result
    rw [hw2000, hoxy, hwb]
    show runReclaimers 3 true f1 [recM] 0 ((ctrlState d x w 500 f (MarsEnvironment.mk false k)).avail0 (calmDraws u) - 12) 9.7 = _
    rw [runRec_single_run 3 f1 recM ((ctrlState d x w 500 f (MarsEnvironment.mk false k)).avail0 (calmDraws u) - 12) 9.7 h3a 30 recM recM_check]
    rw [show min (30 : ℝ) 9.7 = 9.7 from min_eq_right (by norm_num)]
    norm_num
  have hbatpre : (ctrlState d x w 500 f (MarsEnvironment.mk false k)).battery_pre 0 (calmDraws u) =
      500 + 45 * (ctrlState d x w 500 f (MarsEnvironment.mk false k)).sun_eff (calmDraws u) * 8 - 100 := by
    unfold MarsColony.battery_pre MarsColony.total_power_need
    rw [hoxy, hrec]
    show 500 + (ctrlState d x w 500 f (MarsEnvironment.mk false k)).power_gen (calmDraws u) - (85 + 12 + 3) = _
    rw [hpg]
    ring
  have hbat : (ctrlState d x w 500 f (MarsEnvironment.mk false k)).battery_post 0 (calmDraws u) = 500 := by
    unfold MarsColony.battery_post
    rw [hbatpre]
    show (if 500 + 45 * (ctrlState d x w 500 f (MarsEnvironment.mk false k)).sun_eff (calmDraws u) * 8 - 100 > (500 : ℝ) then (500 : ℝ)
      else 500 + 45 * (ctrlState d x w 500 f (MarsEnvironment.mk false k)).sun_eff (calmDraws u) * 8 - 100) = 500
    rw [if_pos (by nlinarith [hE.1])]
  have ho2pre : (ctrlState d x w 500 f (MarsEnvironment.mk false k)).o2_pre 0 (calmDraws u) = x + 8.5 := by
    unfold MarsColony.o2_pre
    rw [hoxy, hcrop]
    show x + (7.5 + 1 - 0.82 * ((0 : ℕ) : ℝ)) = x + 8.5
    push_cast
    ring
  have ho2 : (ctrlState d x w 500 f (MarsEnvironment.mk false k)).o2_post 0 (calmDraws u) = min 50 (x + 8.5) := by
    unfold MarsColony.o2_post
    rw [ho2pre]
    show (if x + 8.5 > (50 : ℝ) then (50 : ℝ) else x + 8.5) = min 50 (x + 8.5)
    exact clamp_eq_min (x + 8.5) 50
  have hwatpre : (ctrlState d x w 500 f (MarsEnvironment.mk false k)).water_pre 0 (calmDraws u) = w - 0.3 := by
    unfold MarsColony.water_pre
    rw [hrec, htwn]
    show w + ((9.7 : ℝ) - 10) = w - 0.3
    ring
  have hwat : (ctrlState d x w 500 f (MarsEnvironment.mk false k)).water_post 0 (calmDraws u) = w - 0.3 := by
    unfold MarsColony.water_post
    rw [hwatpre]
    show (if w - 0.3 > (2000 : ℝ) then (2000 : ℝ) else w - 0.3) = w - 0.3
    rw [if_neg (by linarith)]
  have hfood : (ctrlState d x w 500 f (MarsEnvironment.mk false k)).food_post 0 (calmDraws u) = f + 30000 := by
    unfold MarsColony.food_post
    rw [hcrop]
    show f + ((30000 : ℝ) - 3035 * ((0 : ℕ) : ℝ)) = f + 30000
    push_cast
    ring
  have henv2 : ((ctrlState d x w 500 f (MarsEnvironment.mk false k)).env_result (calmDraws u)).2 = MarsEnvironment.mk false k :=
    env_step_calm_no_trigger k ((ctrlState d x w 500 f (MarsEnvironment.mk false k)).Ls) u 15 hu
  have hno2min : ¬ min (50 : ℝ) (x + 8.5) < 0 :=
    not_lt.mpr (le_min (by norm_num) (by linarith))
  unfold MarsColony.step
  rw [hbat, ho2, hwat, hfood, hrec, hcrop, hoxy, henv2]
  rw [if_neg (show ¬ (500 : ℝ) < 0 by norm_num), if_neg hno2min,
    if_neg (show ¬ w - 0.3 < 0 by linarith), if_neg (show ¬ f + 30000 < 0 by linarith)]
  rw [if_neg (show ¬ (500 : ℝ) < 0 by norm_num), if_neg hno2min,
    if_neg (show ¬ w - 0.3 < 0 by linarith), if_neg (show ¬ f + 30000 < 0 by linarith)]
  rfl

lemma trigger_step (k : ℤ) (w f u : ℝ) (hu : u < 0.005)
    (hw1 : 10 ≤ w) (hw2 : w ≤ 1990) (hf : 0 ≤ f) :
    (ctrlState 201 50 w 500 f (MarsEnvironment.mk false k)).step 0 (calmDraws u) =
      ctrlState 202 50 (w - 0.3) 500 (f + 30000) (MarsEnvironment.mk true 15) := by
  have hLs : (ctrlState 201 50 w 500 f (MarsEnvironment.mk false k)).Ls = 202 := by
    unfold MarsColony.Ls
    show (((201 : ℤ) + 1) % 360 : ℤ) = (202 : ℝ)
    norm_num
  have hE : 5 / 18 < (ctrlState 201 50 w 500 f (MarsEnvironment.mk false k)).sun_eff (calmDraws u) ∧ (ctrlState 201 50 w 500 f (MarsEnvironment.mk false k)).sun_eff (calmDraws u) < 1 :=
    env_eff_calm_bounds (MarsEnvironment.mk false k) rfl ((ctrlState 201 50 w 500 f (MarsEnvironment.mk false k)).Ls) u 15
  have hpg : (ctrlState 201 50 w 500 f (MarsEnvironment.mk false k)).power_gen (calmDraws u) = 45 * (ctrlState 201 50 w 500 f (MarsEnvironment.mk false k)).sun_eff (calmDraws u) * 8 := rfl
  have havail : (ctrlState 201 50 w 500 f (MarsEnvironment.mk false k)).avail0 (calmDraws u) = 500 + 45 * (ctrlState 201 50 w 500 f (MarsEnvironment.mk false k)).sun_eff (calmDraws u) * 8 - 85 := rfl
  have hgate : (ctrlState 201 50 w 500 f (MarsEnvironment.mk false k)).crop_water_available 0 = true :=
    decide_eq_true (show (2.5 : ℝ) * ((0 : ℕ) : ℝ) + 10 ≤ w by push_cast; linarith)
  have htwn : (ctrlState 201 50 w 500 f (MarsEnvironment.mk false k)).total_water_need 0 = 10 := by
    unfold MarsColony.total_water_need
    rw [hgate, if_pos rfl]
    show (2.5 : ℝ) * ((0 : ℕ) : ℝ) + 10 = 10
    push_cast
    ring
  have hwb : (ctrlState 201 50 w 500 f (MarsEnvironment.mk false k)).waste_before 0 = 9.7 := by
    unfold MarsColony.waste_before
    rw [htwn]
    show (0 : ℝ) + 10 * 0.97 = 9.7
    norm_num
  have hcrop : (ctrlState 201 50 w 500 f (MarsEnvironment.mk false k)).crop_result 0 (calmDraws u) = ((30000, 1), cropsC) := by
    unfold MarsColony.crop_result
    rw [hgate]
    exact cropsC_grow
  have hno2 : (decide ((ctrlState 201 50 w 500 f (MarsEnvironment.mk false k)).o2 < (ctrlState 201 50 w 500 f (MarsEnvironment.mk false k)).cfg.max_o2_tank)) = false :=
    decide_eq_false (show ¬ (50 : ℝ) < 50 from lt_irrefl 50)
  have hoxy : (ctrlState 201 50 w 500 f (MarsEnvironment.mk false k)).oxy_result (calmDraws u) =
      { produced := 0, avail := (ctrlState 201 50 w 500 f (MarsEnvironment.mk false k)).avail0 (calmDraws u), power := 0, machines := [oxyM] } := by
    unfold MarsColony.oxy_result
    rw [hno2]
    exact runOxy_no_need 12 f1 [oxyM] 0 _
  have hw2000 : decide ((ctrlState 201 50 w 500 f (MarsEnvironment.mk false k)).water < (ctrlState 201 50 w 500 f (MarsEnvironment.mk false k)).cfg.max_water_tank) = true :=
    decide_eq_true (show w < (2000 : ℝ) by linarith)
  have h3a : (3 : ℝ) ≤ (ctrlState 201 50 w 500 f (MarsEnvironment.mk false k)).avail0 (calmDraws u) := by
    rw [havail]
    nlinarith [hE.1]
  have hrec : (ctrlState 201 50 w 500 f (MarsEnvironment.mk false k)).rec_result 0 (calmDraws u) =
      { reclaimed := 9.7, waste := 0, avail := (ctrlState 201 50 w 500 f (MarsEnvironment.mk false k)).avail0 (calmDraws u) - 3,
        power := 3, machines := [recM] } := by
    unfold MarsColony.rec_result
    rw [hw2000, hoxy, hwb]
    show runReclaimers 3 true f1 [recM] 0 ((ctrlState 201 50 w 500 f (MarsEnvironment.mk false k)).avail0 (calmDraws u)) 9.7 = _
    rw [runRec_single_run 3 f1 recM ((ctrlState 201 50 w 500 f (MarsEnvironment.mk false k)).avail0 (calmDraws u)) 9.7 h3a 30 recM recM_check]
    rw [show min (30 : ℝ) 9.7 = 9.7 from min_eq_right (by norm_num)]
    norm_num
  have hbatpre : (ctrlState 201 50 w 500 f (MarsEnvironment.mk false k)).battery_pre 0 (calmDraws u) =
      500 + 45 * (ctrlState 201 50 w 500 f (MarsEnvironment.mk false k)).sun_eff (calmDraws u) * 8 - 88 := by
    unfold MarsColony.battery_pre MarsColony.total_power_need
    rw [hoxy, hrec]
    show 500 + (ctrlState 201 50 w 500 f (MarsEnvironment.mk false k)).power_gen (calmDraws u) - (85 + 0 + 3) = _
    rw [hpg]
    ring
  have hbat : (ctrlState 201 50 w 500 f (MarsEnvironment.mk false k)).battery_post 0 (calmDraws u) = 500 := by
    unfold MarsColony.battery_post
    rw [hbatpre]
    show (if 500 + 45 * (ctrlState 201 50 w 500 f (MarsEnvironment.mk false k)).sun_eff (calmDraws u) * 8 - 88 > (500 : ℝ) then (500 : ℝ)
      else 500 + 45 * (ctrlState 201 50 w 500 f (MarsEnvironment.mk false k)).sun_eff (calmDraws u) * 8 - 88) = 500
    rw [if_pos (by nlinarith [hE.1])]
  have ho2pre : (ctrlState 201 50 w 500 f (MarsEnvironment.mk false k)).o2_pre 0 (calmDraws u) = 51 := by
    unfold MarsColony.o2_pre
    rw [hoxy, hcrop]
    show (50 : ℝ) + (0 + 1 - 0.82 * ((0 : ℕ) : ℝ)) = 51
    push_cast
    ring
  have ho2 : (ctrlState 201 50 w 500 f (MarsEnvironment.mk false k)).o2_post 0 (calmDraws u) = 50 := by
    unfold MarsColony.o2_post
    rw [ho2pre]
    show (if (51 : ℝ) > 50 then (50 : ℝ) else 51) = 50
    rw [if_pos (by norm_num)]
  have hwatpre : (ctrlState 201 50 w 500 f (MarsEnvironment.mk false k)).water_pre 0 (calmDraws u) = w - 0.3 := by
    unfold MarsColony.water_pre
    rw [hrec, htwn]
    show w + ((9.7 : ℝ) - 10) = w - 0.3
    ring
  have hwat : (ctrlState 201 50 w 500 f (MarsEnvironment.mk false k)).water_post 0 (calmDraws u) = w - 0.3 := by
    unfold MarsColony.water_post
    rw [hwatpre]
    show (if w - 0.3 > (2000 : ℝ) then (2000 : ℝ) else w - 0.3) = w - 0.3
    rw [if_neg (by linarith)]
  have hfood : (ctrlState 201 50 w 500 f (MarsEnvironment.mk false k)).food_post 0 (calmDraws u) = f + 30000 := by
    unfold MarsColony.food_post
    rw [hcrop]
    show f + ((30000 : ℝ) - 3035 * ((0 : ℕ) : ℝ)) = f + 30000
    push_cast
    ring
  have henv2 : ((ctrlState 201 50 w 500 f (MarsEnvironment.mk false k)).env_result (calmDraws u)).2 = MarsEnvironment.mk true 15 := by
    refine env_step_trigger k ((ctrlState 201 50 w 500 f (MarsEnvironment.mk false k)).Ls) u 15 ?_ ?_ hu
    · rw [hLs]; norm_num
    · rw [hLs]; norm_num
  unfold MarsColony.step
  rw [hbat, ho2, hwat, hfood, hrec, hcrop, hoxy, henv2]
  rw [if_neg (show ¬ (500 : ℝ) < 0 by norm_num), if_neg (show ¬ (50 : ℝ) < 0 by norm_num),
    if_neg (show ¬ w - 0.3 < 0 by linarith), if_neg (show ¬ f + 30000 < 0 by linarith)]
  rw [if_neg (show ¬ (500 : ℝ) < 0 by norm_num), if_neg (show ¬ (50 : ℝ) < 0 by norm_num),
    if_neg (show ¬ w - 0.3 < 0 by linarith), if_neg (show ¬ f + 30000 < 0 by linarith)]
  rfl

lemma storm_step (d k : ℤ) (w b f u : ℝ) (hk : 2 ≤ k)
    (hw1 : 10 ≤ w) (hw2 : w ≤ 1990) (hb1 : 80.8 ≤ b) (hb2 : b ≤ 500) (hf : 0 ≤ f) :
    (ctrlState d 50 w b f (MarsEnvironment.mk true k)).step 0 (calmDraws u) =
      ctrlState (d + 1) 50 (w - 0.3) (b - 80.8) (f + 30000)
        (MarsEnvironment.mk true (k - 1)) := by
  have hs : (ctrlState d 50 w b f (MarsEnvironment.mk true k)).sun_eff (calmDraws u) = 0.02 :=
    env_eff_storm (MarsEnvironment.mk true k) rfl ((ctrlState d 50 w b f (MarsEnvironment.mk true k)).Ls) u 15
  have hpg : (ctrlState d 50 w b f (MarsEnvironment.mk true k)).power_gen (calmDraws u) = 7.2 := by
    unfold MarsColony.power_gen
    rw [hs]
    show (45 : ℝ) * 0.02 * 8 = 7.2
    norm_num
  have havail : (ctrlState d 50 w b f (MarsEnvironment.mk true k)).avail0 (calmDraws u) = b - 77.8 := by
    unfold MarsColony.avail0
    rw [hpg]
    show b + 7.2 - (85 : ℝ) = b - 77.8
    ring
  have hgate : (ctrlState d 50 w b f (MarsEnvironment.mk true k)).crop_water_available 0 = true :=
    decide_eq_true (show (2.5 : ℝ) * ((0 : ℕ) : ℝ) + 10 ≤ w by push_cast; linarith)
  have htwn : (ctrlState d 50 w b f (MarsEnvironment.mk true k)).total_water_need 0 = 10 := by
    unfold MarsColony.total_water_need
    rw [hgate, if_pos rfl]
    show (2.5 : ℝ) * ((0 : ℕ) : ℝ) + 10 = 10
    push_cast
    ring
  have hwb : (ctrlState d 50 w b f (MarsEnvironment.mk true k)).waste_before 0 = 9.7 := by
    unfold MarsColony.waste_before
    rw [htwn]
    show (0 : ℝ) + 10 * 0.97 = 9.7
    norm_num
  have hcrop : (ctrlState d 50 w b f (MarsEnvironment.mk true k)).crop_result 0 (calmDraws u) = ((30000, 1), cropsC) := by
    unfold MarsColony.crop_result
    rw [hgate]
    exact cropsC_grow
  have hno2 : (decide ((ctrlState d 50 w b f (MarsEnvironment.mk true k)).o2 < (ctrlState d 50 w b f (MarsEnvironment.mk true k)).cfg.max_o2_tank)) = false :=
    decide_eq_false (show ¬ (50 : ℝ) < 50 from lt_irrefl 50)
  have hoxy : (ctrlState d 50 w b f (MarsEnvironment.mk true k)).oxy_result (calmDraws u) =
      { produced := 0, avail := (ctrlState d 50 w b f (MarsEnvironment.mk true k)).avail0 (calmDraws u), power := 0, machines := [oxyM] } := by
    unfold MarsColony.oxy_result
    rw [hno2]
    exact runOxy_no_need 12 f1 [oxyM] 0 _
  have hw2000 : decide ((ctrlState d 50 w b f (MarsEnvironment.mk true k)).water < (ctrlState d 50 w b f (MarsEnvironment.mk true k)).cfg.max_water_tank) = true :=
    decide_eq_true (show w < (2000 : ℝ) by linarith)
  have h3a : (3 : ℝ) ≤ (ctrlState d 50 w b f (MarsEnvironment.mk true k)).avail0 (calmDraws u) := by
    rw [havail]
    linarith
  have hrec : (ctrlState d 50 w b f (MarsEnvironment.mk true k)).rec_result 0 (calmDraws u) =
      { reclaimed := 9.7, waste := 0, avail := (ctrlState d 50 w b f (MarsEnvironment.mk true k)).avail0 (calmDraws u) - 3,
        power := 3, machines := [recM] } := by
    unfold MarsColony.rec_result
    rw [hw2000, hoxy, hwb]
    show runReclaimers 3 true f1 [recM] 0 ((ctrlState d 50 w b f (MarsEnvironment.mk true k)).avail0 (calmDraws u)) 9.7 = _
    rw [runRec_single_run 3 f1 recM ((ctrlState d 50 w b f (MarsEnvironment.mk true k)).avail0 (calmDraws u)) 9.7 h3a 30 recM recM_check]
    rw [show min (30 : ℝ) 9.7 = 9.7 from min_eq_right (by norm_num)]
    norm_num
  have hbatpre : (ctrlState d 50 w b f (MarsEnvironment.mk true k)).battery_pre 0 (calmDraws u) = b - 80.8 := by
    unfold MarsColony.battery_pre MarsColony.total_power_need
    rw [hoxy, hrec]
    show b + (ctrlState d 50 w b f (MarsEnvironment.mk true k)).power_gen (calmDraws u) - (85 + 0 + 3) = _
    rw [hpg]
    ring
  have hbat : (ctrlState d 50 w b f (MarsEnvironment.mk true k)).battery_post 0 (calmDraws u) = b - 80.8 := by
    unfold MarsColony.battery_post
    rw [hbatpre]
    show (if b - 80.8 > (500 : ℝ) then (500 : ℝ) else b - 80.8) = b - 80.8
    rw [if_neg (by linarith)]
  have ho2pre : (ctrlState d 50 w b f (MarsEnvironment.mk true k)).o2_pre 0 (calmDraws u) = 51 := by
    unfold MarsColony.o2_pre
    rw [hoxy, hcrop]
    show (50 : ℝ) + (0 + 1 - 0.82 * ((0 : ℕ) : ℝ)) = 51
    push_cast
    ring
  have ho2 : (ctrlState d 50 w b f (MarsEnvironment.mk true k)).o2_post 0 (calmDraws u) = 50 := by
    unfold MarsColony.o2_post
    rw [ho2pre]
    show (if (51 : ℝ) > 50 then (50 : ℝ) else 51) = 50
    rw [if_pos (by norm_num)]
  have hwatpre : (ctrlState d 50 w b f (MarsEnvironment.mk true k)).water_pre 0 (calmDraws u) = w - 0.3 := by
    unfold MarsColony.water_pre
    rw [hrec, htwn]
    show w + ((9.7 : ℝ) - 10) = w - 0.3
    ring
  have hwat : (ctrlState d 50 w b f (MarsEnvironment.mk true k)).water_post 0 (calmDraws u) = w - 0.3 := by
    unfold MarsColony.water_post
    rw [hwatpre]
    show (if w - 0.3 > (2000 : ℝ) then (2000 : ℝ) else w - 0.3) = w - 0.3
    rw [if_neg (by linarith)]
  have hfood : (ctrlState d 50 w b f (MarsEnvironment.mk true k)).food_post 0 (calmDraws u) = f + 30000 := by
    unfold MarsColony.food_post
    rw [hcrop]
    show f + ((30000 : ℝ) - 3035 * ((0 : ℕ) : ℝ)) = f + 30000
    push_cast
    ring
  have henv2 : ((ctrlState d 50 w b f (MarsEnvironment.mk true k)).env_result (calmDraws u)).2 = MarsEnvironment.mk true (k - 1) :=
    env_step_storm k hk ((ctrlState d 50 w b f (MarsEnvironment.mk true k)).Ls) u 15
  unfold MarsColony.step
  rw [hbat, ho2, hwat, hfood, hrec, hcrop, hoxy, henv2]
  rw [if_neg (show ¬ b - 80.8 < 0 by linarith), if_neg (show ¬ (50 : ℝ) < 0 by norm_num),
    if_neg (show ¬ w - 0.3 < 0 by linarith), if_neg (show ¬ f + 30000 < 0 by linarith)]
  rw [if_neg (show ¬ b - 80.8 < 0 by linarith), if_neg (show ¬ (50 : ℝ) < 0 by norm_num),
    if_neg (show ¬ w - 0.3 < 0 by linarith), if_neg (show ¬ f + 30000 < 0 by linarith)]
  rfl

lemma storm_death_step (d k : ℤ) (w b f u : ℝ) (hb2 : b < 77.8) :
    ((ctrlState d 50 w b f (MarsEnvironment.mk true k)).step 0 (calmDraws u)).alive = false ∧
    ((ctrlState d 50 w b f (MarsEnvironment.mk true k)).step 0 (calmDraws u)).cause_of_death = "Power Failure" := by
  have hs : (ctrlState d 50 w b f (MarsEnvironment.mk true k)).sun_eff (calmDraws u) = 0.02 :=
    env_eff_storm (MarsEnvironment.mk true k) rfl ((ctrlState d 50 w b f (MarsEnvironment.mk true k)).Ls) u 15
  have hpg : (ctrlState d 50 w b f (MarsEnvironment.mk true k)).power_gen (calmDraws u) = 7.2 := by
    unfold MarsColony.power_gen
    rw [hs]
    show (45 : ℝ) * 0.02 * 8 = 7.2
    norm_num
  have havail : (ctrlState d 50 w b f (MarsEnvironment.mk true k)).avail0 (calmDraws u) = b - 77.8 := by
    unfold MarsColony.avail0
    rw [hpg]
    show b + 7.2 - (85 : ℝ) = b - 77.8
    ring
  have hno2 : (decide ((ctrlState d 50 w b f (MarsEnvironment.mk true k)).o2 < (ctrlState d 50 w b f (MarsEnvironment.mk true k)).cfg.max_o2_tank)) = false :=
    decide_eq_false (show ¬ (50 : ℝ) < 50 from lt_irrefl 50)
  have hoxy : (ctrlState d 50 w b f (MarsEnvironment.mk true k)).oxy_result (calmDraws u) =
      { produced := 0, avail := (ctrlState d 50 w b f (MarsEnvironment.mk true k)).avail0 (calmDraws u), power := 0, machines := [oxyM] } := by
    unfold MarsColony.oxy_result
    rw [hno2]
    exact runOxy_no_need 12 f1 [oxyM] 0 _
  have hrec : (ctrlState d 50 w b f (MarsEnvironment.mk true k)).rec_result 0 (calmDraws u) =
      { reclaimed := 0, waste := (ctrlState d 50 w b f (MarsEnvironment.mk true k)).waste_before 0, avail := (ctrlState d 50 w b f (MarsEnvironment.mk true k)).avail0 (calmDraws u),
        power := 0, machines := [recM] } := by
    unfold MarsColony.rec_result
    rw [hoxy]
    show runReclaimers 3 (decide ((ctrlState d 50 w b f (MarsEnvironment.mk true k)).water < (ctrlState d 50 w b f (MarsEnvironment.mk true k)).cfg.max_water_tank)) f1 [recM] 0
      ((ctrlState d 50 w b f (MarsEnvironment.mk true k)).avail0 (calmDraws u)) ((ctrlState d 50 w b f (MarsEnvironment.mk true k)).waste_before 0) = _
    rw [runRec_skip 3 _ f1 [recM] 0 ((ctrlState d 50 w b f (MarsEnvironment.mk true k)).avail0 (calmDraws u)) ((ctrlState d 50 w b f (MarsEnvironment.mk true k)).waste_before 0)
      (by rw [havail]; linarith)]
  have hbatpre : (ctrlState d 50 w b f (MarsEnvironment.mk true k)).battery_pre 0 (calmDraws u) = b - 77.8 := by
    unfold MarsColony.battery_pre MarsColony.total_power_need
    rw [hoxy, hrec]
    show b + (ctrlState d 50 w b f (MarsEnvironment.mk true k)).power_gen (calmDraws u) - (85 + 0 + 0) = _
    rw [hpg]
    ring
  have hbat : (ctrlState d 50 w b f (MarsEnvironment.mk true k)).battery_post 0 (calmDraws u) = b - 77.8 := by
    unfold MarsColony.battery_post
    rw [hbatpre]
    show (if b - 77.8 > (500 : ℝ) then (500 : ℝ) else b - 77.8) = b - 77.8
    rw [if_neg (by linarith)]
  constructor
  · show (if (ctrlState d 50 w b f (MarsEnvironment.mk true k)).battery_post 0 (calmDraws u) < 0 then false
      else if (ctrlState d 50 w b f (MarsEnvironment.mk true k)).o2_post 0 (calmDraws u) < 0 then false
      else if (ctrlState d 50 w b f (MarsEnvironment.mk true k)).water_post 0 (calmDraws u) < 0 then false
      else if (ctrlState d 50 w b f (MarsEnvironment.mk true k)).food_post 0 (calmDraws u) < 0 then false
      else (ctrlState d 50 w b f (MarsEnvironment.mk true k)).alive) = false
    rw [hbat, if_pos (by linarith)]
  · show (if (ctrlState d 50 w b f (MarsEnvironment.mk true k)).battery_post 0 (calmDraws u) < 0 then "Power Failure"
      else if (ctrlState d 50 w b f (MarsEnvironment.mk true k)).o2_post 0 (calmDraws u) < 0 then "Suffocation"
      else if (ctrlState d 50 w b f (MarsEnvironment.mk true k)).water_post 0 (calmDraws u) < 0 then "Dehydration"
      else if (ctrlState d 50 w b f (MarsEnvironment.mk true k)).food_post 0 (calmDraws u) < 0 then "Starvation"
      else (ctrlState d 50 w b f (MarsEnvironment.mk true k)).cause_of_death) = "Power Failure"
    rw [hbat, if_pos (by linarith)]

/-- State of the counterexample mission after `n` executed days. -/
noncomputable def trajState (n : ℕ) : MarsColony :=
  MarsColony.runN 0 stormOracle
    (ctrlState 0 8 1000 500 50000 (MarsEnvironment.mk false 0)) n

lemma trajState_succ_of (n : ℕ) (S : MarsColony) (h : trajState n = S)
    (ha : S.alive = true) :
    trajState (n + 1) = S.step 0 (stormOracle n) := by
  have h' : MarsColony.runN 0 stormOracle
      (ctrlState 0 8 1000 500 50000 (MarsEnvironment.mk false 0)) n = S := h
  show (if (MarsColony.runN 0 stormOracle
      (ctrlState 0 8 1000 500 50000 (MarsEnvironment.mk false 0)) n).alive
    then (MarsColony.runN 0 stormOracle
      (ctrlState 0 8 1000 500 50000 (MarsEnvironment.mk false 0)) n).step 0 (stormOracle n)
    else MarsColony.runN 0 stormOracle
      (ctrlState 0 8 1000 500 50000 (MarsEnvironment.mk false 0)) n) = _
  rw [h', ha, if_pos rfl]

lemma stormOracle_ne (n : ℕ) (h : ¬ n = 201) : stormOracle n = calmDraws 1 := by
  unfold stormOracle
  rw [if_neg h]

lemma stormOracle_201 : stormOracle 201 = calmDraws 0 := by
  unfold stormOracle
  rw [if_pos rfl]

lemma traj1 : trajState 1 = ctrlState 1 16.5 999.7 500 80000 (MarsEnvironment.mk false 0) := by
  rw [trajState_succ_of 0 (ctrlState 0 8 1000 500 50000 (MarsEnvironment.mk false 0)) rfl rfl,
    stormOracle_ne 0 (by norm_num),
    calm_step_ramp 0 0 8 1000 50000 1 (by norm_num) (by norm_num) (by norm_num)
      (by norm_num) (by norm_num) (by norm_num)]
  rw [show min (50 : ℝ) (8 + 8.5) = 16.5 from by rw [min_eq_right (by norm_num)]; norm_num]
  norm_num

lemma traj2 : trajState 2 = ctrlState 2 25 999.4 500 110000 (MarsEnvironment.mk false 0) := by
  rw [trajState_succ_of 1 _ traj1 rfl, stormOracle_ne 1 (by norm_num),
    calm_step_ramp 1 0 16.5 999.7 80000 1 (by norm_num) (by norm_num) (by norm_num)
      (by norm_num) (by norm_num) (by norm_num)]
  rw [show min (50 : ℝ) (16.5 + 8.5) = 25 from by rw [min_eq_right (by norm_num)]; norm_num]
  norm_num

lemma traj3 : trajState 3 = ctrlState 3 33.5 999.1 500 140000 (MarsEnvironment.mk false 0) := by
  rw [trajState_succ_of 2 _ traj2 rfl, stormOracle_ne 2 (by norm_num),
    calm_step_ramp 2 0 25 999.4 110000 1 (by norm_num) (by norm_num) (by norm_num)
      (by norm_num) (by norm_num) (by norm_num)]
  rw [show min (50 : ℝ) (25 + 8.5) = 33.5 from by rw [min_eq_right (by norm_num)]; norm_num]
  norm_num

lemma traj4 : trajState 4 = ctrlState 4 42 998.8 500 170000 (MarsEnvironment.mk false 0) := by
  rw [trajState_succ_of 3 _ traj3 rfl, stormOracle_ne 3 (by norm_num),
    calm_step_ramp 3 0 33.5 999.1 140000 1 (by norm_num) (by norm_num) (by norm_num)
      (by norm_num) (by norm_num) (by norm_num)]
  rw [show min (50 : ℝ) (33.5 + 8.5) = 42 from by rw [min_eq_right (by norm_num)]; norm_num]
  norm_num

lemma traj5 : trajState 5 = ctrlState 5 50 998.5 500 200000 (MarsEnvironment.mk false 0) := by
  rw [trajState_succ_of 4 _ traj4 rfl, stormOracle_ne 4 (by norm_num),
    calm_step_ramp 4 0 42 998.8 170000 1 (by norm_num) (by norm_num) (by norm_num)
      (by norm_num) (by norm_num) (by norm_num)]
  rw [show min (50 : ℝ) (42 + 8.5) = 50 from min_eq_left (by norm_num)]
  norm_num

lemma trajB : ∀ j, j ≤ 196 → trajState (5 + j) =
    ctrlState (5 + (j : ℤ)) 50 (998.5 - 0.3 * (j : ℝ)) 500
      (200000 + 30000 * (j : ℝ)) (MarsEnvironment.mk false 0) := by
  intro j
  induction j with
  | zero =>
    intro _
    rw [traj5]
    norm_num
  | succ j ih =>
    intro hj
    have hj' : j ≤ 196 := by omega
    have hjr : (j : ℝ) ≤ 195 := by exact_mod_cast (by omega : j ≤ 195)
    have hjr0 : (0 : ℝ) ≤ (j : ℝ) := Nat.cast_nonneg j
    have hstep := trajState_succ_of (5 + j) _ (ih hj') rfl
    show trajState ((5 + j) + 1) = _
    rw [hstep, stormOracle_ne (5 + j) (by omega),
      calm_step_full (5 + (j : ℤ)) 0 (998.5 - 0.3 * (j : ℝ)) (200000 + 30000 * (j : ℝ)) 1
        (by norm_num) (by linarith) (by linarith) (by linarith)]
    push_cast
    ring_nf

lemma traj201 : trajState 201 = ctrlState 201 50 939.7 500 6080000 (MarsEnvironment.mk false 0) := by
  have h := trajB 196 le_rfl
  norm_num at h
  exact h.trans (by norm_num)

lemma traj202 : trajState 202 = ctrlState 202 50 939.4 500 6110000 (MarsEnvironment.mk true 15) := by
  rw [trajState_succ_of 201 _ traj201 rfl, stormOracle_201,
    trigger_step 0 939.7 6080000 0 (by norm_num) (by norm_num) (by norm_num) (by norm_num)]
  norm_num

lemma traj203 : trajState 203 = ctrlState 203 50 939.1 419.2 6140000 (MarsEnvironment.mk true 14) := by
  rw [trajState_succ_of 202 _ traj202 rfl, stormOracle_ne 202 (by norm_num),
    storm_step 202 15 939.4 500 6110000 1 (by norm_num) (by norm_num) (by norm_num)
      (by norm_num) (by norm_num) (by norm_num)]
  norm_num

lemma traj204 : trajState 204 = ctrlState 204 50 938.8 338.4 6170000 (MarsEnvironment.mk true 13) := by
  rw [trajState_succ_of 203 _ traj203 rfl, stormOracle_ne 203 (by norm_num),
    storm_step 203 14 939.1 419.2 6140000 1 (by norm_num) (by norm_num) (by norm_num)
      (by norm_num) (by norm_num) (by norm_num)]
  norm_num

lemma traj205 : trajState 205 = ctrlState 205 50 938.5 257.6 6200000 (MarsEnvironment.mk true 12) := by
  rw [trajState_succ_of 204 _ traj204 rfl, stormOracle_ne 204 (by norm_num),
    storm_step 204 13 938.8 338.4 6170000 1 (by norm_num) (by norm_num) (by norm_num)
      (by norm_num) (by norm_num) (by norm_num)]
  norm_num

lemma traj206 : trajState 206 = ctrlState 206 50 938.2 176.8 6230000 (MarsEnvironment.mk true 11) := by
  rw [trajState_succ_of 205 _ traj205 rfl, stormOracle_ne 205 (by norm_num),
    storm_step 205 12 938.5 257.6 6200000 1 (by norm_num) (by norm_num) (by norm_num)
      (by norm_num) (by norm_num) (by norm_num)]
  norm_num

lemma traj207 : trajState 207 = ctrlState 207 50 937.9 96 6260000 (MarsEnvironment.mk true 10) := by
  rw [trajState_succ_of 206 _ traj206 rfl, stormOracle_ne 206 (by norm_num),
    storm_step 206 11 938.2 176.8 6230000 1 (by norm_num) (by norm_num) (by norm_num)
      (by norm_num) (by norm_num) (by norm_num)]
  norm_num

lemma traj208 : trajState 208 = ctrlState 208 50 937.6 15.2 6290000 (MarsEnvironment.mk true 9) := by
  rw [trajState_succ_of 207 _ traj207 rfl, stormOracle_ne 207 (by norm_num),
    storm_step 207 10 937.9 96 6260000 1 (by norm_num) (by norm_num) (by norm_num)
      (by norm_num) (by norm_num) (by norm_num)]
  norm_num

lemma traj209_dead : (trajState 209).alive = false ∧
    (trajState 209).cause_of_death = "Power Failure" := by
  rw [trajState_succ_of 208 _ traj208 rfl, stormOracle_ne 208 (by norm_num)]
  exact storm_death_step 208 9 937.6 15.2 6290000 1 (by norm_num)

lemma trajState_stable : ∀ m, trajState (209 + m) = trajState 209 := by
  intro m
  induction m with
  | zero => rfl
  | succ m ih =>
    have h : trajState ((209 + m) + 1) =
        if (trajState (209 + m)).alive then
          (trajState (209 + m)).step 0 (stormOracle (209 + m))
        else trajState (209 + m) := rfl
    show trajState ((209 + m) + 1) = _
    rw [h, ih, traj209_dead.1]
    rw [if_neg (by simp)]

/-- C8 counterexample: with crew size 0, default resources, CONTROL
configuration, and a draw sequence whose only storm trigger fires on day 202
with a 15-day storm (machines never fail, neutral crop draws), the mission
dies of "Power Failure" on day 209: the 85 kWh/day base power draw is
independent of the crew, and during the storm the solar array generates only
45 × 0.02 × 8 = 7.2 kWh/day, so the 500 kWh battery is exhausted. -/
theorem crew_zero_power_failure_counterexample :
    (MarsColony.run_mission 0 stormOracle (MCSimConfig.init ("CONTROL"))).alive = false ∧
    (MarsColony.run_mission 0 stormOracle
      (MCSimConfig.init ("CONTROL"))).cause_of_death = "Power Failure" := by
  have h : MarsColony.run_mission 0 stormOracle (MCSimConfig.init ("CONTROL")) =
      trajState 500 := by
    unfold MarsColony.run_mission mission_duration trajState
    rw [init_ctrl]
  rw [h, show (500 : ℕ) = 209 + 291 from rfl, trajState_stable 291]
  exact traj209_dead

/-! ### Crew-zero invariant and the amended C8 -/

lemma clamp_nonneg {x m : ℝ} (hx : 0 ≤ x) (hm : 0 ≤ m) :
    0 ≤ (if x > m then m else x) := by
  split
  · exact hm
  · exact hx

lemma grow_outputs_nonneg (c : CropModule) (w : Bool) (g : ℝ) :
    0 ≤ (c.grow w g).1.1 ∧ 0 ≤ (c.grow w g).1.2 := by
  by_cases h : newHealth c w ≤ 0
  · rw [grow_eq_dead c w g h]
    exact ⟨le_rfl, le_rfl⟩
  · rw [grow_eq_live c w g h]
    exact ⟨le_max_left _ _, le_max_left _ _⟩

/-- Invariant of a crew-zero mission: valid configuration, non-negative
stocks, non-negative machine rates, and a cause of death that can only be
empty or "Power Failure". -/
def Crew0Inv (mode : String) (c : MarsColony) : Prop :=
  c.cfg = MCSimConfig.init mode ∧ 0 ≤ c.o2 ∧ 0 ≤ c.water ∧ 0 ≤ c.food ∧
  0 ≤ c.waste_water ∧
  (∀ m ∈ c.oxygenators, 0 ≤ m.production_rate) ∧
  (∀ m ∈ c.water_reclaimers, 0 ≤ m.production_rate) ∧
  (c.cause_of_death = "" ∨ c.cause_of_death = "Power Failure")

lemma crew0_inv_init (mode : String) :
    Crew0Inv mode (MarsColony.init (MCSimConfig.init mode)) := by
  obtain ⟨h1, h2, h3, h4, h5, h6, h7, h8, h9, h10, h11, h12, h13, h14, h15, h16,
    h17, h18, h19⟩ := config_facts mode
  refine ⟨rfl, ?_, ?_, ?_, le_rfl, ?_, ?_, Or.inl rfl⟩
  · show 0 ≤ (MCSimConfig.init mode).starting_o2
    rw [h5]; norm_num
  · show 0 ≤ (MCSimConfig.init mode).starting_water
    rw [h7]; norm_num
  · show 0 ≤ (MCSimConfig.init mode).starting_food
    rw [h10]; norm_num
  · intro m hm
    unfold MarsColony.init at hm
    simp only [List.mem_map] at hm
    obtain ⟨i, _, hi⟩ := hm
    rw [← hi]
    show 0 ≤ (MCSimConfig.init mode).o2_production_rate
    exact (config_facts_pos mode).2.1
  · intro m hm
    unfold MarsColony.init at hm
    simp only [List.mem_map] at hm
    obtain ⟨i, _, hi⟩ := hm
    rw [← hi]
    show 0 ≤ (MCSimConfig.init mode).water_reclamation_rate
    rw [h18]; norm_num

lemma crew0_inv_step (mode : String) (c : MarsColony) (d : DayDraws)
    (h : Crew0Inv mode c) : Crew0Inv mode (c.step 0 d) := by
  obtain ⟨hcfg, ho2, hw, hf, hwaste, hoxyR, hrecR, hcause⟩ := h
  obtain ⟨g1, g2, g3, g4, g5, g6, g7, g8, g9, g10, g11, g12, g13, g14, g15, g16,
    g17, g18, g19⟩ := config_facts mode
  have hwb : 0 ≤ c.waste_before 0 :=
    waste_before_nonneg 0 c hwaste (by rw [hcfg, g2]; norm_num)
      (by rw [hcfg, g11]; norm_num) (by rw [hcfg, g19]; norm_num)
  have hrecl : 0 ≤ (c.rec_result 0 d).reclaimed := by
    unfold MarsColony.rec_result
    exact runRec_reclaimed_nonneg _ _ _ _ _ _ _ hwb hrecR
  have hprod : 0 ≤ (c.oxy_result d).produced := by
    unfold MarsColony.oxy_result
    exact runOxy_produced_nonneg _ _ _ _ _ _ hoxyR
  have hcropv := grow_outputs_nonneg c.crops (c.crop_water_available 0) d.bio
  have ho2need : c.total_o2_need 0 = 0 := by
    unfold MarsColony.total_o2_need
    simp
  have hfoodneed : c.total_food_need 0 = 0 := by
    unfold MarsColony.total_food_need
    simp
  have hbase0 : c.base_water_need 0 = 0 := by
    unfold MarsColony.base_water_need
    simp
  have ho2post : 0 ≤ c.o2_post 0 d := by
    unfold MarsColony.o2_post MarsColony.o2_pre
    rw [ho2need]
    apply clamp_nonneg
    · have := hcropv.2
      unfold MarsColony.crop_result at *
      linarith
    · rw [hcfg, g6]; norm_num
  have hwpre : 0 ≤ c.water_pre 0 d := by
    unfold MarsColony.water_pre MarsColony.total_water_need
    split
    · rename_i hgate
      have hgate' : c.base_water_need 0 + c.cfg.crop_daily_water_need ≤ c.water :=
        of_decide_eq_true hgate
      rw [hbase0] at hgate' ⊢
      linarith
    · rw [hbase0]
      linarith
  have hwpost : 0 ≤ c.water_post 0 d := by
    unfold MarsColony.water_post
    apply clamp_nonneg hwpre
    rw [hcfg, g8]; norm_num
  have hfpost : 0 ≤ c.food_post 0 d := by
    unfold MarsColony.food_post
    rw [hfoodneed]
    have := hcropv.1
    unfold MarsColony.crop_result at *
    linarith
  refine ⟨hcfg, ho2post, hwpost, hfpost, ?_, ?_, ?_, ?_⟩
  · show 0 ≤ (c.rec_result 0 d).waste
    unfold MarsColony.rec_result
    exact runRec_waste_nonneg _ _ _ _ _ _ _ hwb
  · show ∀ m ∈ (c.oxy_result d).machines, 0 ≤ m.production_rate
    unfold MarsColony.oxy_result
    exact runOxy_rates_nonneg _ _ _ _ _ _ hoxyR
  · show ∀ m ∈ (c.rec_result 0 d).machines, 0 ≤ m.production_rate
    unfold MarsColony.rec_result
    exact runRec_rates_nonneg _ _ _ _ _ _ _ hrecR
  · have hcw : (MarsColony.step 0 c d).cause_of_death =
        (if c.battery_post 0 d < 0 then "Power Failure"
        else if c.o2_post 0 d < 0 then "Suffocation"
        else if c.water_post 0 d < 0 then "Dehydration"
        else if c.food_post 0 d < 0 then "Starvation"
        else c.cause_of_death) := rfl
    rw [hcw]
    by_cases hb : c.battery_post 0 d < 0
    · rw [if_pos hb]
      exact Or.inr rfl
    · rw [if_neg hb, if_neg (not_lt.mpr ho2post), if_neg (not_lt.mpr hwpost),
        if_neg (not_lt.mpr hfpost)]
      exact hcause

lemma crew0_inv_runN (mode : String) (O : ℕ → DayDraws) :
    ∀ n, Crew0Inv mode (MarsColony.runN 0 O (MarsColony.init (MCSimConfig.init mode)) n) := by
  intro n
  induction n with
  | zero => exact crew0_inv_init mode
  | succ n ih =>
    show Crew0Inv mode (if (MarsColony.runN 0 O (MarsColony.init (MCSimConfig.init mode)) n).alive
      then (MarsColony.runN 0 O (MarsColony.init (MCSimConfig.init mode)) n).step 0 (O n)
      else MarsColony.runN 0 O (MarsColony.init (MCSimConfig.init mode)) n)
    split
    · exact crew0_inv_step mode _ (O n) ih
    · exact ih

/-- C8 (amended): with crew size 0 and the default starting resources, for
every configuration mode and every outcome of the draws, the oxygen, water
and food stocks stay non-negative for the whole mission and the colony never
dies of Suffocation, Dehydration or Starvation — but death remains possible:
the cause of death is always either empty or "Power Failure", since the base
power draw is independent of the crew (see the counterexample). -/
theorem crew_zero_no_exhaustion (mode : String) (O : ℕ → DayDraws) :
    (∀ n : ℕ,
      ((MarsColony.runN 0 O (MarsColony.init (MCSimConfig.init mode)) n).cause_of_death = "" ∨
        (MarsColony.runN 0 O (MarsColony.init (MCSimConfig.init mode)) n).cause_of_death =
          "Power Failure") ∧
      0 ≤ (MarsColony.runN 0 O (MarsColony.init (MCSimConfig.init mode)) n).o2 ∧
      0 ≤ (MarsColony.runN 0 O (MarsColony.init (MCSimConfig.init mode)) n).water ∧
      0 ≤ (MarsColony.runN 0 O (MarsColony.init (MCSimConfig.init mode)) n).food) ∧
    (MarsColony.run_mission 0 O (MCSimConfig.init mode)).cause_of_death ≠ "Suffocation" ∧
    (MarsColony.run_mission 0 O (MCSimConfig.init mode)).cause_of_death ≠ "Dehydration" ∧
    (MarsColony.run_mission 0 O (MCSimConfig.init mode)).cause_of_death ≠ "Starvation" := by
  have hinv := crew0_inv_runN mode O
  constructor
  · intro n
    obtain ⟨_, h2, h3, h4, _, _, _, h8⟩ := hinv n
    exact ⟨h8, h2, h3, h4⟩
  · have h8 := (hinv mission_duration).2.2.2.2.2.2.2
    unfold MarsColony.run_mission
    rcases h8 with h | h <;>
      refine ⟨?_, ?_, ?_⟩ <;> rw [h] <;> decide

/-! ### IEEE binary64 model of the crop health arithmetic -/

/-- Exact rational value of an IEEE binary64 floating-point number: an
integer significand of at most 53 bits times a power of two (the exponent
range is irrelevant at the magnitudes arising here). -/
def isRepr (x : ℚ) : Prop :=
  ∃ m : ℤ, ∃ e : ℤ, |m| ≤ 2 ^ 53 - 1 ∧ x = (m : ℚ) * (2 : ℚ) ^ e

/-- A binary64 value expressible with an even integer significand within
the 53-bit bound; this characterises the value that round-to-nearest picks
on a tie (even canonical significand). -/
def isReprEven (x : ℚ) : Prop :=
  ∃ m : ℤ, ∃ e : ℤ, |m| ≤ 2 ^ 53 - 1 ∧ m % 2 = 0 ∧ x = (m : ℚ) * (2 : ℚ) ^ e

/-- Correct rounding, nearest with ties to even: `y` is the binary64 result
of the exact quantity `x`. -/
def RN (x y : ℚ) : Prop :=
  isRepr y ∧ (∀ z : ℚ, isRepr z → |y - x| ≤ |z - x|) ∧
  (∀ z : ℚ, isRepr z → |z - x| = |y - x| → z ≠ y → isReprEven y)

/-- The binary64 value of the literal `0.2` (mcs.py line 132). -/
def d02 : ℚ := 3602879701896397 / 2 ^ 54

/-- The binary64 value of the literal `0.1` (mcs.py line 134). -/
def d01 : ℚ := 3602879701896397 / 2 ^ 55

/-- The binary64 value of the literal `0.8` (mcs.py line 146). -/
def d08 : ℚ := 3602879701896397 / 2 ^ 52

/-- The binary64 value of the literal `1.2` (mcs.py line 146). -/
def d12 : ℚ := 5404319552844595 / 2 ^ 52

/-- Health-update part of `CropModule.grow` (mcs.py lines 130-141) under
IEEE binary64 semantics: the single addition or subtraction is correctly
rounded; the `min`/`max` clamp and the `health <= 0` reset are exact. -/
def growHealthF (health : ℚ) (has_water : Bool) (h' : ℚ) : Prop :=
  ∃ t : ℚ, RN (if has_water then health + d01 else health - d02) t ∧
    h' = max 0 (min 1 t)

/-- Method `CropModule.grow` (mcs.py lines 129-153) under IEEE binary64
semantics, relating the inputs (base yields, stored health and gauss draw,
all binary64 values) to the returned `(food, oxygen)` pair and new health:
each `+`, `-`, `*` is correctly rounded, while the `min`/`max` comparisons
and the branch test are exact. -/
def growF (base_food base_o2 health g : ℚ) (has_water : Bool)
    (out : ℚ × ℚ × ℚ) : Prop :=
  ∃ t : ℚ, RN (if has_water then health + d01 else health - d02) t ∧
    ((max 0 (min 1 t) ≤ 0 ∧ out = (0, 0, 0)) ∨
     (¬ max 0 (min 1 t) ≤ 0 ∧
      ∃ bf1 bf2 bo1 bo2 : ℚ,
        RN (base_food * max d08 (min d12 g)) bf1 ∧
        RN (bf1 * max 0 (min 1 t)) bf2 ∧
        RN (base_o2 * max d08 (min d12 g)) bo1 ∧
        RN (bo1 * max 0 (min 1 t)) bo2 ∧
        out = (max 0 bf2, max 0 bo2, max 0 (min 1 t))))

lemma rn_exact (x : ℚ) (h : isRepr x) : RN x x := by
  refine ⟨h, ?_, ?_⟩
  · intro z _
    simp only [sub_self, abs_zero]
    exact abs_nonneg _
  · intro z _ hz hne
    exfalso
    apply hne
    have h0 : |z - x| = 0 := by rw [hz]; simp
    exact sub_eq_zero.mp (abs_eq_zero.mp h0)

lemma zpow_neg_nat (k : ℕ) : (2 : ℚ) ^ (-(k : ℤ)) = ((2 : ℚ) ^ k)⁻¹ := by
  rw [zpow_neg, zpow_natCast]

lemma isRepr_div54 (m : ℤ) (hm : |m| ≤ 2 ^ 53 - 1) : isRepr ((m : ℚ) / 2 ^ 54) := by
  refine ⟨m, -54, hm, ?_⟩
  rw [show (-54 : ℤ) = -(54 : ℕ) from rfl, zpow_neg_nat]
  ring

/-- No binary64 value lies strictly within half an ulp of an odd multiple
of `2^-54` in the binade `[1/2, 1)`. -/
lemma repr_far_from_odd_half (n : ℤ) (hodd : n % 2 = 1) (hlo : 2 ^ 53 < n)
    (hhi : n + 1 < 2 ^ 54) :
    ∀ z : ℚ, isRepr z → 1 / 2 ^ 54 ≤ |z - (n : ℚ) / 2 ^ 54| := by
  intro z hz
  obtain ⟨m, e, hm, hzeq⟩ := hz
  by_contra hcon
  push_neg at hcon
  rcases le_or_lt (-53 : ℤ) e with he | he
  · have hnn : (0 : ℤ) ≤ e + 53 := by omega
    have hzK : z * 2 ^ 53 = ((m * 2 ^ (e + 53).toNat : ℤ) : ℚ) := by
      push_cast
      rw [hzeq, mul_assoc]
      congr 1
      rw [← zpow_natCast (2 : ℚ) 53,
        ← zpow_add₀ (show (2 : ℚ) ≠ 0 by norm_num) e ((53 : ℕ) : ℤ),
        ← zpow_natCast (2 : ℚ) (e + 53).toNat]
      congr 1
      omega
    have hKx : ((m * 2 ^ (e + 53).toNat : ℤ) : ℚ) - (n : ℚ) / 2 =
        (z - (n : ℚ) / 2 ^ 54) * 2 ^ 53 := by
      rw [← hzK]
      ring
    have habs : |((m * 2 ^ (e + 53).toNat : ℤ) : ℚ) - (n : ℚ) / 2| < 1 / 2 := by
      rw [hKx, abs_mul, abs_of_pos (show (0 : ℚ) < 2 ^ 53 by positivity)]
      calc |z - (n : ℚ) / 2 ^ 54| * 2 ^ 53 < (1 / 2 ^ 54) * 2 ^ 53 :=
            mul_lt_mul_of_pos_right hcon (by positivity)
        _ = 1 / 2 := by norm_num
    have hint : |2 * (m * 2 ^ (e + 53).toNat) - n| < (1 : ℤ) := by
      have h2 : |((2 * (m * 2 ^ (e + 53).toNat) - n : ℤ) : ℚ)| < 1 := by
        have h3 : ((2 * (m * 2 ^ (e + 53).toNat) - n : ℤ) : ℚ) =
            2 * (((m * 2 ^ (e + 53).toNat : ℤ) : ℚ) - (n : ℚ) / 2) := by
          push_cast
          ring
        rw [h3, abs_mul]
        rw [show |(2 : ℚ)| = 2 from by norm_num]
        linarith [habs]
      exact_mod_cast h2
    have h0 := Int.abs_lt_one_iff.mp hint
    omega
  · have he' : e ≤ -54 := by omega
    have h1 : |(m : ℚ)| ≤ (2 ^ 53 - 1 : ℚ) := by exact_mod_cast hm
    have h2 : (2 : ℚ) ^ e ≤ (2 : ℚ) ^ (-54 : ℤ) :=
      zpow_le_zpow_right₀ (by norm_num) he'
    have hz2 : |z| ≤ (2 ^ 53 - 1 : ℚ) * (2 : ℚ) ^ (-54 : ℤ) := by
      rw [hzeq, abs_mul, abs_of_pos (show (0 : ℚ) < (2 : ℚ) ^ e from zpow_pos (by norm_num) e)]
      exact mul_le_mul h1 h2 (le_of_lt (zpow_pos (by norm_num) e)) (by positivity)
    have hz3 : |z| < 1 / 2 := by
      have h4 : (2 ^ 53 - 1 : ℚ) * (2 : ℚ) ^ (-54 : ℤ) < 1 / 2 := by
        rw [show (-54 : ℤ) = -(54 : ℕ) from rfl, zpow_neg_nat]
        norm_num
      exact lt_of_le_of_lt hz2 h4
    have hzlb : (n : ℚ) / 2 ^ 54 - 1 / 2 ^ 54 < z := by
      have h5 := abs_lt.mp hcon
      linarith [h5.1]
    have hn1 : (2 ^ 53 : ℚ) + 1 ≤ (n : ℚ) := by
      exact_mod_cast (by omega : (2 ^ 53 + 1 : ℤ) ≤ n)
    have h6 : (1 : ℚ) / 2 ≤ (n : ℚ) / 2 ^ 54 - 1 / 2 ^ 54 := by linarith
    linarith [le_abs_self z]

/-- Rounding an odd multiple of `2^-54` in `[1/2, 1)` whose upper neighbour
has an even significand: the tie goes up. -/
lemma rn_tie_up (n : ℤ) (hodd : n % 2 = 1) (hlo : 2 ^ 53 < n) (hhi : n + 1 < 2 ^ 54)
    (heven : ((n + 1) / 2) % 2 = 0) :
    RN ((n : ℚ) / 2 ^ 54) (((n : ℚ) + 1) / 2 ^ 54) := by
  have hEk : ((n + 1) / 2) * 2 = n + 1 := by omega
  have hkpos : 0 < (n + 1) / 2 := by omega
  have hkb : |(n + 1) / 2| ≤ 2 ^ 53 - 1 := by
    rw [abs_of_pos hkpos]
    omega
  have hyeq : ((n : ℚ) + 1) / 2 ^ 54 = (((n + 1) / 2 : ℤ) : ℚ) * (2 : ℚ) ^ (-53 : ℤ) := by
    rw [show (-53 : ℤ) = -(53 : ℕ) from rfl, zpow_neg_nat]
    have h2 : (((n + 1) / 2 : ℤ) : ℚ) * 2 = (n : ℚ) + 1 := by exact_mod_cast hEk
    have h3 : (((n + 1) / 2 : ℤ) : ℚ) * ((2 : ℚ) ^ 53)⁻¹ =
        ((((n + 1) / 2 : ℤ) : ℚ) * 2) * ((2 : ℚ) ^ 54)⁻¹ := by
      field_simp
      ring
    rw [h3, h2]
    exact div_eq_mul_inv _ _
  have hdist : |((n : ℚ) + 1) / 2 ^ 54 - (n : ℚ) / 2 ^ 54| = 1 / 2 ^ 54 := by
    rw [show ((n : ℚ) + 1) / 2 ^ 54 - (n : ℚ) / 2 ^ 54 = 1 / 2 ^ 54 from by ring]
    rw [abs_of_pos (by positivity)]
  refine ⟨⟨(n + 1) / 2, -53, hkb, hyeq⟩, ?_, ?_⟩
  · intro z hz
    rw [hdist]
    exact repr_far_from_odd_half n hodd hlo hhi z hz
  · intro z hz htie hne
    exact ⟨(n + 1) / 2, -53, hkb, heven, hyeq⟩
lemma rn_tie_up_q (n : ℤ) (hodd : n % 2 = 1) (hlo : 2 ^ 53 < n) (hhi : n + 1 < 2 ^ 54)
    (heven : ((n + 1) / 2) % 2 = 0) (a b : ℚ) (ha : a = (n : ℚ) / 2 ^ 54)
    (hb : b = ((n : ℚ) + 1) / 2 ^ 54) : RN a b := by
  rw [ha, hb]
  exact rn_tie_up n hodd hlo hhi heven

lemma rn_exact_div54_q (m : ℤ) (hm : |m| ≤ 2 ^ 53 - 1) (a b : ℚ)
    (ha : a = (m : ℚ) / 2 ^ 54) (hb : b = (m : ℚ) / 2 ^ 54) : RN a b := by
  rw [ha, hb]
  exact rn_exact _ (isRepr_div54 m hm)

lemma rn_exact_int_q (m : ℤ) (hm : |m| ≤ 2 ^ 53 - 1) (a b : ℚ)
    (ha : a = (m : ℚ)) (hb : b = (m : ℚ)) : RN a b := by
  rw [ha, hb]
  refine rn_exact _ ⟨m, 0, hm, ?_⟩
  rw [zpow_zero, mul_one]

lemma growHealthF_false (health h' t : ℚ) (h1 : RN (health - d02) t)
    (h2 : h' = max 0 (min 1 t)) : growHealthF health false h' := by
  refine ⟨t, ?_, h2⟩
  simpa using h1

lemma growF_false_live (base_food base_o2 health g t bf1 bf2 bo1 bo2 : ℚ)
    (out : ℚ × ℚ × ℚ) (h1 : RN (health - d02) t) (hpos : ¬ max 0 (min 1 t) ≤ 0)
    (h2 : RN (base_food * max d08 (min d12 g)) bf1)
    (h3 : RN (bf1 * max 0 (min 1 t)) bf2)
    (h4 : RN (base_o2 * max d08 (min d12 g)) bo1)
    (h5 : RN (bo1 * max 0 (min 1 t)) bo2)
    (hout : out = (max 0 bf2, max 0 bo2, max 0 (min 1 t))) :
    growF base_food base_o2 health g false out := by
  refine ⟨t, ?_, Or.inr ⟨hpos, bf1, bf2, bo1, bo2, h2, h3, h4, h5, hout⟩⟩
  simpa using h1

/-- C5: refuted by the program arithmetic — code/spec divergence.  The claim
(and the comment "Dies in 5 days without water" on mcs.py line 132) says
health is exactly 0 after 5 waterless `grow` calls, with the 5th call
returning exactly `(0, 0)`.  Under the IEEE binary64 arithmetic the program
actually uses (modelled here by the correct-rounding relation `RN`), the five
subtractions of the double nearest 0.2 from 1.0 give
`2 ^ -54 = 5.551115123125783e-17`, not 0: the first two steps land on ties
that round up, the rest are exact.  So after the 5th call health is strictly
positive, and with gauss draw 1.0 and base yields 30000 and 1 the 5th call
returns the strictly positive pair `(30000 * 2 ^ -54, 2 ^ -54)`, not
`(0, 0)`; health reaches exactly 0 only on the 6th call. -/
theorem crop_drought_float_divergence :
    growHealthF 1 false (14411518807585588 / 2 ^ 54) ∧
    growHealthF (14411518807585588 / 2 ^ 54) false (10808639105689192 / 2 ^ 54) ∧
    growHealthF (10808639105689192 / 2 ^ 54) false (7205759403792795 / 2 ^ 54) ∧
    growHealthF (7205759403792795 / 2 ^ 54) false (3602879701896398 / 2 ^ 54) ∧
    growHealthF (3602879701896398 / 2 ^ 54) false (1 / 2 ^ 54) ∧
    ¬ (1 / 2 ^ 54 : ℚ) ≤ 0 ∧
    growF 30000 1 (3602879701896398 / 2 ^ 54) 1 false
      (30000 / 2 ^ 54, 1 / 2 ^ 54, 1 / 2 ^ 54) ∧
    ((30000 / 2 ^ 54 : ℚ), (1 / 2 ^ 54 : ℚ)) ≠ ((0 : ℚ), (0 : ℚ)) ∧
    growHealthF (1 / 2 ^ 54) false 0 := by
  have hq1 : min (1 : ℚ) (1 / 2 ^ 54) = 1 / 2 ^ 54 := min_eq_right (by norm_num)
  have hq2 : max (0 : ℚ) (1 / 2 ^ 54) = 1 / 2 ^ 54 := max_eq_right (by norm_num)
  have hbio : max d08 (min d12 (1 : ℚ)) = 1 := by
    rw [min_eq_right (by unfold d12; norm_num), max_eq_right (by unfold d08; norm_num)]
  refine ⟨?_, ?_, ?_, ?_, ?_, by norm_num, ?_, ?_, ?_⟩
  · refine growHealthF_false _ _ (14411518807585588 / 2 ^ 54) ?_ ?_
    · exact rn_tie_up_q 14411518807585587 (by decide) (by decide) (by decide) (by decide)
        _ _ (by unfold d02; norm_num) (by norm_num)
    · rw [min_eq_right (by norm_num), max_eq_right (by norm_num)]
  · refine growHealthF_false _ _ (10808639105689192 / 2 ^ 54) ?_ ?_
    · exact rn_tie_up_q 10808639105689191 (by decide) (by decide) (by decide) (by decide)
        _ _ (by unfold d02; norm_num) (by norm_num)
    · rw [min_eq_right (by norm_num), max_eq_right (by norm_num)]
  · refine growHealthF_false _ _ (7205759403792795 / 2 ^ 54) ?_ ?_
    · exact rn_exact_div54_q 7205759403792795 (by decide)
        _ _ (by unfold d02; norm_num) (by norm_num)
    · rw [min_eq_right (by norm_num), max_eq_right (by norm_num)]
  · refine growHealthF_false _ _ (3602879701896398 / 2 ^ 54) ?_ ?_
    · exact rn_exact_div54_q 3602879701896398 (by decide)
        _ _ (by unfold d02; norm_num) (by norm_num)
    · rw [min_eq_right (by norm_num), max_eq_right (by norm_num)]
  · refine growHealthF_false _ _ (1 / 2 ^ 54) ?_ ?_
    · exact rn_exact_div54_q 1 (by decide)
        _ _ (by unfold d02; norm_num) (by norm_num)
    · rw [hq1, hq2]
  · refine growF_false_live _ _ _ _ (1 / 2 ^ 54) 30000 (30000 / 2 ^ 54) 1 (1 / 2 ^ 54)
      _ ?_ ?_ ?_ ?_ ?_ ?_ ?_
    · exact rn_exact_div54_q 1 (by decide)
        _ _ (by unfold d02; norm_num) (by norm_num)
    · rw [hq1, hq2]
      norm_num
    · rw [hbio, mul_one]
      exact rn_exact_int_q 30000 (by decide) _ _ (by norm_num) (by norm_num)
    · rw [hq1, hq2]
      exact rn_exact_div54_q 30000 (by decide) _ _ (by norm_num) (by norm_num)
    · rw [hbio, mul_one]
      exact rn_exact_int_q 1 (by decide) _ _ (by norm_num) (by norm_num)
    · rw [hq1, hq2, one_mul]
      exact rn_exact_div54_q 1 (by decide) _ _ (by norm_num) (by norm_num)
    · rw [hq1, hq2]
      rw [max_eq_right (show (0 : ℚ) ≤ 30000 / 2 ^ 54 by norm_num)]
  · intro hcon
    have h := congrArg Prod.fst hcon
    norm_num at h
  · refine growHealthF_false _ _ (-(3602879701896396 / 2 ^ 54)) ?_ ?_
    · exact rn_exact_div54_q (-3602879701896396) (by decide)
        _ _ (by unfold d02; push_cast; norm_num) (by push_cast; norm_num)
    · rw [min_eq_right (by norm_num), max_eq_left (by norm_num)]
